import Mathlib

set_option maxRecDepth 4000

/-!
Shallow embedding of the text-clustering core of the repository
(`src/utils/dataProcessing.js`, `src/utils/textClustering.js`, and the
bundled natural-wrapper fallbacks) in Lean 4, used to settle the claims
about preprocessing, TF-IDF vectorisation, cosine similarity, MDS/t-SNE
dimensionality reduction, k-means clustering and cluster summarisation.

Modelling conventions:
* JavaScript numbers are modelled by exact rationals (`ℚ`).  `Math.sqrt`
  is modelled by `jsSqrt`, a computable rational square root that is exact
  on perfect squares of rationals (floating point is likewise exact there);
  `Math.exp` / `Math.log` are modelled by computable rational
  approximations (`jsExp`, `jsLog`).  No theorem below depends on the
  approximation error of `jsExp`/`jsLog`.
* `Math.random()` is modelled by an explicit stream `rng : ℕ → ℚ` of draws
  together with an offset; a call site consuming `m` draws passes the next
  offset on.  `rngBounds rng` states every draw lies in `[0, 1)`, as
  `Math.random` guarantees.
* Strings are processed on their character lists; the `natural` npm
  package is external to the repository, so tokenizer / stemmer /
  stopwords / TF-IDF are modelled by the repository's own browser
  fallbacks (`MockTokenizer`, `mockPorterStemmer`, `defaultStopwords`,
  `MockTfIdf`) bundled with the sources in the natural wrapper.
* Array indexing `a[i]` is modelled by `List.getD` with default `0` (or
  `[]`).  In JS an out-of-range read yields `undefined` and poisons the
  arithmetic with `NaN`; no code path evaluated by the theorems below
  reads out of range (theorems about mixed-length vector pairs carry an
  explicit equal-length hypothesis instead).
-/

/-- Newton iteration for the integer square root (structural fuel
recursion, so that both the elaborator and the kernel can evaluate it). -/
def isqrtAux (n : ℕ) : ℕ → ℕ → ℕ
  | 0, x => x
  | fuel + 1, x =>
    let y := (x + n / x) / 2
    if y < x then isqrtAux n fuel y else x

/-- The integer (floor) square root, by Newton iteration from `n` with
ample fuel (exact for every input of fewer than ~600 bits, far beyond
anything evaluated here). -/
def isqrtN (n : ℕ) : ℕ := if n ≤ 1 then n else isqrtAux n 300 n

/-- `Math.sqrt`, modelled as a computable rational square root.
For `q = (p/r)^2 ≥ 0` it returns exactly `p/r` (like IEEE sqrt on perfect
squares); otherwise it returns a rational approximation from below within
`1/(den·10^6)`.  Negative input yields `0` (JS would yield `NaN`; no code
path in this development takes the square root of a negative number). -/
def jsSqrt (q : ℚ) : ℚ :=
  if q ≤ 0 then 0
  else (isqrtN (q.num.toNat * q.den * 1000000 ^ 2) : ℚ) / ((q.den : ℚ) * 1000000)

/-- `Math.exp`, modelled by a truncated Taylor series (rational approximation). -/
def jsExp (q : ℚ) : ℚ :=
  ∑ k ∈ Finset.range 20, q ^ k / (Nat.factorial k : ℚ)

/-- `Math.log`, modelled by a truncated artanh series (rational
approximation); nonpositive input yields `0` (JS: `NaN`/`-Infinity`,
never hit by the theorems below). -/
def jsLog (q : ℚ) : ℚ :=
  if q ≤ 0 then 0
  else
    2 * ∑ k ∈ Finset.range 10,
      ((q - 1) / (q + 1)) ^ (2 * k + 1) / ((2 * k + 1 : ℕ) : ℚ)

/-- IEEE `+Infinity` stand-in: only its role as a huge value matters and no
theorem below evaluates a code path that produces it. -/
def jsInfinity : ℚ := 10 ^ 300

/-- `Math.floor(q * n)` coerced to a natural index (as used for
`Math.floor(Math.random() * n)`). -/
def floorIdx (q : ℚ) (n : ℕ) : ℕ := (Int.floor (q * (n : ℚ))).toNat

/-- The random stream models `Math.random()`: every draw is in `[0, 1)`. -/
def rngBounds (rng : ℕ → ℚ) : Prop := ∀ i, 0 ≤ rng i ∧ rng i < 1

/-- The constant-zero random stream (a legitimate `Math.random` model). -/
def rng0 : ℕ → ℚ := fun _ => 0

/-! ## Character/string helpers (regex splitting) -/

/-- Splitter used to model `String.prototype.split` on a separator class:
returns the maximal runs of non-separator characters, dropping empty
pieces (the behaviour of `split(/\s+/).filter(Boolean)` and of iterating
`/\w+/` matches). -/
def splitTok (isSep : Char → Bool) : List Char → List (List Char)
  | [] => []
  | c :: cs =>
    if isSep c then splitTok isSep cs
    else
      ((c :: cs).takeWhile (fun x => !isSep x)) ::
        splitTok isSep ((c :: cs).dropWhile (fun x => !isSep x))
termination_by l => l.length
decreasing_by
  · simp only [List.length_cons]; omega
  · rename_i h
    rw [List.dropWhile_cons]
    simp only [h, Bool.not_false, if_true]
    have := (List.dropWhile_suffix (l := cs) (fun x => !isSep x)).length_le
    simp only [List.length_cons]
    omega

/-- Whitespace tokenisation: `text.split(/\s+/).filter(Boolean)`
(the repository's `MockTokenizer.tokenize`). -/
def splitWs : List Char → List (List Char) := splitTok Char.isWhitespace

/-- Join tokens with single spaces (`tokens.join(' ')`). -/
def joinWs : List (List Char) → List Char
  | [] => []
  | [t] => t
  | t :: ts => t ++ ' ' :: joinWs ts

/-- `text.replace(/\s+/g, ' ').trim()`: every maximal whitespace run is
replaced by a single space and the ends are stripped, i.e. the
whitespace-separated tokens are rejoined with single spaces. -/
def collapseWs (l : List Char) : List Char := joinWs (splitWs l)

/-- Raw JS `split(/\s+/)` (without `filter(Boolean)`): a leading or
trailing separator run contributes an empty piece, and splitting the empty
string yields `[""]`.  Used by `MockTfIdf` for document length. -/
def jsSplitWsRaw (l : List Char) : List (List Char) :=
  match l with
  | [] => [[]]
  | c :: cs =>
    (if c.isWhitespace then [[]] else []) ++ splitWs (c :: cs) ++
      (if ((c :: cs).getLastD ' ').isWhitespace then [[]] else [])

/-- A character matching `[a-z0-9]` case-insensitively (`/^[a-z0-9]+$/i`). -/
def jsAlnum (c : Char) : Bool :=
  ('a' ≤ c && c ≤ 'z') || ('A' ≤ c && c ≤ 'Z') || ('0' ≤ c && c ≤ '9')

/-- A JS "word" character (regex `\w`): `[A-Za-z0-9_]`. -/
def jsWordChar (c : Char) : Bool := jsAlnum c || c = '_'

/-! ## Preprocessor (`preprocessText` with the natural wrapper's fallbacks) -/

/-- `defaultStopwords` from the natural wrapper (the fixed English
stopword list used when `natural.StopwordsEn` is unavailable). -/
def defaultStopwords : List String :=
  ["a", "about", "above", "after", "again", "against", "all", "am", "an", "and",
   "any", "are", "aren\x27t", "as", "at", "be", "because", "been", "before", "being",
   "below", "between", "both", "but", "by", "can", "can\x27t", "cannot", "could",
   "couldn\x27t", "did", "didn\x27t", "do", "does", "doesn\x27t", "doing", "don\x27t", "down",
   "during", "each", "few", "for", "from", "further", "had", "hadn\x27t", "has", "hasn\x27t",
   "have", "haven\x27t", "having", "he", "he\x27d", "he\x27ll", "he\x27s", "her", "here", "here\x27s",
   "hers", "herself", "him", "himself", "his", "how", "how\x27s", "i", "i\x27d", "i\x27ll",
   "i\x27m", "i\x27ve", "if", "in", "into", "is", "isn\x27t", "it", "it\x27s", "its", "itself",
   "let\x27s", "me", "more", "most", "mustn\x27t", "my", "myself", "no", "nor", "not", "of",
   "off", "on", "once", "only", "or", "other", "ought", "our", "ours", "ourselves", "out",
   "over", "own", "same", "shan\x27t", "she", "she\x27d", "she\x27ll", "she\x27s", "should",
   "shouldn\x27t", "so", "some", "such", "than", "that", "that\x27s", "the", "their", "theirs",
   "them", "themselves", "then", "there", "there\x27s", "these", "they", "they\x27d", "they\x27ll",
   "they\x27re", "they\x27ve", "this", "those", "through", "to", "too", "under", "until", "up",
   "very", "was", "wasn\x27t", "we", "we\x27d", "we\x27ll", "we\x27re", "we\x27ve", "were", "weren\x27t",
   "what", "what\x27s", "when", "when\x27s", "where", "where\x27s", "which", "while", "who",
   "who\x27s", "whom", "why", "why\x27s", "with", "won\x27t", "would", "wouldn\x27t", "you",
   "you\x27d", "you\x27ll", "you\x27re", "you\x27ve", "your", "yours", "yourself", "yourselves"]

/-- The suffix rules of `mockPorterStemmer` (in order; only the first
matching rule applies). -/
def stemRules : List (String × String) :=
  [("ing", ""), ("ed", ""), ("s", ""), ("es", ""), ("ly", ""), ("ies", "y")]

/-- Apply the first matching suffix rule (the `break` in the rule loop). -/
def applyStemRules : List (String × String) → String → String
  | [], w => w
  | (suf, rep) :: rest, w =>
    if suf.data.isSuffixOf w.data then
      String.mk (w.data.take (w.data.length - suf.data.length)) ++ rep
    else applyStemRules rest w

/-- `mockPorterStemmer.stem`: lowercase, then apply the first matching
suffix rule.  Empty input returns the empty string. -/
def mockStem (w : String) : String :=
  if w = "" then ""
  else applyStemRules stemRules (String.mk (w.data.map Char.toLower))

/-- The token filter of `preprocessText`: length > 2, not a stopword, and
matching `/^[a-z0-9]+$/i`. -/
def keepToken (t : List Char) : Bool :=
  decide (t.length > 2) && !(defaultStopwords.contains (String.mk t)) &&
    t.all jsAlnum

/-- `preprocessText` (`dataProcessing.js` lines 9–33): lowercase, collapse
whitespace, tokenize (wrapper fallback `MockTokenizer`), drop tokens of
length ≤ 2 / stopwords / non-alphanumeric tokens, stem each survivor with
the wrapper fallback stemmer, and rejoin with single spaces.  `null` /
non-string input (which returns `''` in JS) is outside the `String` type
and not modelled. -/
def preprocessText (s : String) : String :=
  let lower := s.data.map Char.toLower
  let collapsed := collapseWs lower
  let tokens := splitWs collapsed
  let filtered := tokens.filter keepToken
  let stemmed := filtered.map (fun t => (mockStem (String.mk t)).data)
  String.mk (joinWs stemmed)

/-! ## TF-IDF model (`MockTfIdf` from the natural wrapper) -/

/-- The words of a document as seen by `MockTfIdf`
(`text.split(/\s+/).filter(Boolean)`). -/
def wordsOfDoc (s : String) : List String := (splitWs s.data).map String.mk

/-- Keep the first occurrence of each element (the key-insertion order of
a JS object, as used for `this.terms` and for `Set`). -/
def firstSeen (ws : List String) : List String :=
  ws.foldl (fun acc w => if acc.contains w then acc else acc ++ [w]) []

/-- The corpus term order of `MockTfIdf.terms`: keys are created in the
order words are first seen while documents are added. -/
def corpusTerms (docs : List String) : List String :=
  firstSeen (docs.flatMap wordsOfDoc)

/-- `this.docs[docIndex].split(/\s+/).length || 1`
(the raw split, so boundary whitespace contributes empty pieces). -/
def jsDocLen (s : String) : ℕ :=
  let L := (jsSplitWsRaw s.data).length
  if L = 0 then 1 else L

/-- Insert into a list sorted by descending second component, after any
equal elements (a stable descending sort step, matching the stable JS
`sort((a, b) => b.tfidf - a.tfidf)`). -/
def insertDescQ (x : String × ℚ) : List (String × ℚ) → List (String × ℚ)
  | [] => [x]
  | y :: ys => if x.2 ≥ y.2 then x :: y :: ys else y :: insertDescQ x ys

/-- Stable sort by descending rational second component. -/
def sortPairsDescQ (l : List (String × ℚ)) : List (String × ℚ) :=
  l.foldr insertDescQ []

/-- `MockTfIdf.listTerms(docIndex)`: every corpus term occurring in the
document, valued at term-frequency divided by the document's raw split
length, sorted by descending value.  Out-of-range indices yield `[]`. -/
def mockListTerms (docs : List String) (i : ℕ) : List (String × ℚ) :=
  if docs.length ≤ i then []
  else
    let doc := docs.getD i ""
    let ws := wordsOfDoc doc
    sortPairsDescQ ((corpusTerms docs).filterMap (fun term =>
      let c := ws.count term
      if c ≠ 0 then some (term, (c : ℚ) / (jsDocLen doc : ℚ)) else none))

/-! ## Cosine similarity (`cosineSimilarity`, `dataProcessing.js` 656–671) -/

/-- The loop of `cosineSimilarity`, abstracted over the loop bound
(`vecA.length`) and the two indexed accessors: accumulate the dot product
and the two squared norms over `i < len`, return `0` if either norm is
zero, otherwise the normalised dot product. -/
def cosineCore (len : ℕ) (fa fb : ℕ → ℚ) : ℚ :=
  let dot := ∑ i ∈ Finset.range len, fa i * fb i
  let normA := ∑ i ∈ Finset.range len, fa i * fa i
  let normB := ∑ i ∈ Finset.range len, fb i * fb i
  if normA = 0 ∨ normB = 0 then 0
  else dot / (jsSqrt normA * jsSqrt normB)

/-- `cosineSimilarity` on two numeric arrays.  The loop runs over the
indices of the first argument, exactly as in the source. -/
def cosineSimilarity (a b : List ℚ) : ℚ :=
  cosineCore a.length (fun i => a.getD i 0) (fun i => b.getD i 0)

/-- The squared Euclidean norm of a vector, as accumulated by the
`cosineSimilarity` loop. -/
def normSq (v : List ℚ) : ℚ := ∑ i ∈ Finset.range v.length, v.getD i 0 * v.getD i 0

/-- A document vector as built by `clusterTexts` (lines 1362–1382): a
plain JS object mapping each term to its tfidf weight, modelled as an
association list in key-insertion order. -/
def TermVec : Type := List (String × ℚ)

instance : DecidableEq TermVec := by unfold TermVec; infer_instance

/-- A plain JS object has no `.length` property, so the numeric loop bound
`vecA.length` of `cosineSimilarity` is `undefined` and the comparison
`i < undefined` is false: the loop executes zero iterations. -/
def objVecLength (_v : TermVec) : ℕ := 0

/-- Numeric indexing (`vecA[i]`) on a plain term-weight object: the value
is never read because the loop bound is `0` (in JS it would be
`undefined`). -/
def objVecAt (_v : TermVec) (_i : ℕ) : ℚ := 0

/-- `cosineSimilarity` as invoked by `clusterTexts` on two term-weight
objects: the loop bound is the object's (nonexistent) `.length`. -/
def cosineSimilarityOnObj (a b : TermVec) : ℚ :=
  cosineCore (objVecLength a) (objVecAt a) (objVecAt b)

/-- `isNaN(q)` on an exact rational: always false (the guard in
`clusterTexts` lines 1397–1399 is kept to mirror the source). -/
def jsIsNaN (_q : ℚ) : Bool := false

/-- `isFinite(q)` on an exact rational: always true. -/
def jsIsFinite (_q : ℚ) : Bool := true

/-- One entry of the similarity matrix of `clusterTexts` (lines
1389–1405): the cosine similarity of the two term-weight objects, with the
NaN/Infinity fallback (`1` on the diagonal, `0` off it). -/
def simEntry (vs : List TermVec) (i j : ℕ) : ℚ :=
  let s := cosineSimilarityOnObj (vs.getD i []) (vs.getD j [])
  if jsIsNaN s || !jsIsFinite s then (if i = j then 1 else 0) else s

/-- The similarity matrix of `clusterTexts`. -/
def simMatrixOf (vs : List TermVec) : List (List ℚ) :=
  (List.range vs.length).map (fun i => (List.range vs.length).map (simEntry vs i))

/-- `similarityMatrix.map(row => row.map(sim => 1 - sim))`
(line 1408: conversion to a distance matrix for MDS). -/
def distanceMatrixOf (vs : List TermVec) : List (List ℚ) :=
  (simMatrixOf vs).map (fun row => row.map (fun s => 1 - s))

/-! ## Simplified MDS (`simpleMDS`, `dataProcessing.js` 674–714) -/

/-- The target distance used in the gradient step of `simpleMDS`
(line 697): `1 - distanceMatrix[i][j]`. -/
def mdsTargetDist (dm : List (List ℚ)) (i j : ℕ) : ℚ :=
  1 - (dm.getD i []).getD j 0

/-- Initial random points of `simpleMDS`: `n` rows of `dims` draws of
`Math.random() * 2 - 1`, consumed row-major from offset `off`. -/
def mdsInit (n dims : ℕ) (rng : ℕ → ℚ) (off : ℕ) : List (List ℚ) :=
  (List.range n).map (fun i =>
    (List.range dims).map (fun d => rng (off + i * dims + d) * 2 - 1))

/-- The unordered pairs `(i, j)` with `i < j < n`, in the nested-loop
order of `simpleMDS`. -/
def pairList (n : ℕ) : List (ℕ × ℕ) :=
  (List.range n).flatMap (fun i =>
    ((List.range n).filter (fun j => decide (i < j))).map (fun j => (i, j)))

/-- One pair update of the `simpleMDS` sweep: compute the embedding
distance, skip the pair if it is below `1e-6`, otherwise move both points
symmetrically along their separating axis by the learning-rate-scaled
discrepancy `embeddingDist - targetDist`. -/
def mdsPairUpdate (dm : List (List ℚ)) (dims : ℕ)
    (pts : List (List ℚ)) (ij : ℕ × ℕ) : List (List ℚ) :=
  let i := ij.1
  let j := ij.2
  let pti := pts.getD i []
  let ptj := pts.getD j []
  let embSq := ∑ d ∈ Finset.range dims, (pti.getD d 0 - ptj.getD d 0) ^ 2
  let embDist := jsSqrt embSq
  let targetDist := mdsTargetDist dm i j
  let diff := embDist - targetDist
  if embDist < 1 / 1000000 then pts
  else
    let newI := (List.range dims).map (fun d =>
      pti.getD d 0 - (1 / 10) * diff * (pti.getD d 0 - ptj.getD d 0) / embDist)
    let newJ := (List.range dims).map (fun d =>
      ptj.getD d 0 + (1 / 10) * diff * (pti.getD d 0 - ptj.getD d 0) / embDist)
    (pts.set i newI).set j newJ

/-- One gradient-descent sweep of `simpleMDS` over all unordered pairs. -/
def mdsSweep (dm : List (List ℚ)) (dims : ℕ) (pts : List (List ℚ)) :
    List (List ℚ) :=
  (pairList dm.length).foldl (mdsPairUpdate dm dims) pts

/-- `simpleMDS(distanceMatrix, dimensions)`: random initialisation
followed by 50 fixed sweeps.  It applies no normalization to its output. -/
def simpleMDS (dm : List (List ℚ)) (dims : ℕ) (rng : ℕ → ℚ) (off : ℕ) :
    List (List ℚ) :=
  (List.range 50).foldl (fun pts _ => mdsSweep dm dims pts)
    (mdsInit dm.length dims rng off)

/-- The per-axis mean of a list of coordinate rows (axis `d`), as a
statistic of reducer output. -/
def meanAxis (pts : List (List ℚ)) (d : ℕ) : ℚ :=
  (pts.map (fun p => p.getD d 0)).sum / (pts.length : ℚ)

/-- The per-axis variance of a list of coordinate rows (axis `d`). -/
def varAxis (pts : List (List ℚ)) (d : ℕ) : ℚ :=
  (pts.map (fun p => (p.getD d 0 - meanAxis pts d) ^ 2)).sum / (pts.length : ℚ)

/-! ## k-means (`kmeans` in `dataProcessing.js` 717–781 and
`kMeansWithVectors` in `textClustering.js` 11–82; the two functions share
their seeding and Lloyd-iteration structure verbatim, so the loop is
defined once, parameterised by the distance and centroid-update
functions of the respective file). -/

/-- `euclideanDist` (`dataProcessing.js` 783–785): the reduction runs over
the indices of the first vector. -/
def euclideanDist (a b : List ℚ) : ℚ :=
  jsSqrt (∑ i ∈ Finset.range a.length, (a.getD i 0 - b.getD i 0) ^ 2)

/-- `euclideanDistance` (`textClustering.js` 150–162): `Infinity` on
missing or length-mismatched arguments, else the Euclidean distance. -/
def euclideanDistanceT (a b : List ℚ) : ℚ :=
  if a.length ≠ b.length then jsInfinity
  else jsSqrt (∑ i ∈ Finset.range a.length, (a.getD i 0 - b.getD i 0) ^ 2)

/-- `Math.min(...dists)` for a nonempty list ( `-Infinity`-free: the call
sites always pass a nonempty list; `[]` returns `0` in the model). -/
def minD : List ℚ → ℚ
  | [] => 0
  | x :: xs => xs.foldl min x

/-- `dists.indexOf(Math.min(...dists))`: index of the first occurrence of
the minimum (ties broken by lowest index). -/
def argminIdx (l : List ℚ) : ℕ := l.indexOf (minD l)

/-- The k-means++ roulette scan
(`while (r > 0 && j < n) { r -= d_j²; j++ }`). -/
def pickIndexAux : ℚ → List ℚ → ℕ → ℕ
  | _, [], j => j
  | r, d :: ds, j => if 0 < r then pickIndexAux (r - d * d) ds (j + 1) else j

/-- One step of the k-means++ seeding loop: distances of every point to
its nearest chosen centroid, a roulette draw proportional to the squared
distances, and the chosen point appended to the centroid list. -/
def kmSeedStep (dist : List ℚ → List ℚ → ℚ) (pts : List (List ℚ))
    (rng : ℕ → ℚ) (off : ℕ) (cents : List (List ℚ)) (t : ℕ) :
    List (List ℚ) :=
  let ds := pts.map (fun p => minD (cents.map (fun c => dist p c)))
  let s := (ds.map (fun d => d * d)).sum
  let r := rng (off + 1 + t) * s
  let j := pickIndexAux r ds 0
  cents ++ [pts.getD (min j (pts.length - 1)) []]

/-- k-means++ seeding, common to both files: first centroid at index
`Math.floor(random()*n)`, then `k - 1` further centroids chosen with
probability proportional to squared distance to the nearest chosen
centroid. -/
def kmSeed (dist : List ℚ → List ℚ → ℚ) (pts : List (List ℚ)) (k : ℕ)
    (rng : ℕ → ℚ) (off : ℕ) : List (List ℚ) :=
  let first := pts.getD (floorIdx (rng off) pts.length) []
  (List.range (k - 1)).foldl (kmSeedStep dist pts rng off) [first]

/-- The assignment pass, common to both files: each point goes to the
nearest centroid, first index on ties. -/
def assignPassWith (dist : List ℚ → List ℚ → ℚ) (pts : List (List ℚ))
    (cs : List (List ℚ)) : List ℕ :=
  pts.map (fun p => argminIdx (cs.map (fun c => dist p c)))

/-- The members of cluster `j` (`points.filter((_, i) => assignments[i] === j)`). -/
def membersOf (pts : List (List ℚ)) (a : List ℕ) (j : ℕ) : List (List ℚ) :=
  ((pts.zip a).filter (fun pa => pa.2 == j)).map (fun pa => pa.1)

/-- Centroid update of `dataProcessing.kmeans`: coordinate-wise
`reduce`-sum divided by the member count, over the fixed dimension
`points[0].length`; an empty cluster keeps its stale centroid. -/
def updateCentroidsK (pts : List (List ℚ)) (dim : ℕ) (a : List ℕ) (k : ℕ)
    (cs : List (List ℚ)) : List (List ℚ) :=
  (List.range k).map (fun j =>
    let asg := membersOf pts a j
    if asg = [] then cs.getD j []
    else (List.range dim).map (fun d =>
      (asg.map (fun p => p.getD d 0)).sum / (asg.length : ℚ)))

/-- Centroid update of `kMeansWithVectors`: per-member division
accumulated coordinate-wise, over `assignedVectors[0].length` dimensions;
an empty cluster keeps its stale centroid. -/
def updateCentroidsT (pts : List (List ℚ)) (a : List ℕ) (k : ℕ)
    (cs : List (List ℚ)) : List (List ℚ) :=
  (List.range k).map (fun j =>
    let asg := membersOf pts a j
    if asg = [] then cs.getD j []
    else (List.range (asg.headD []).length).map (fun d =>
      (asg.map (fun v => v.getD d 0 / (asg.length : ℚ))).sum))

/-- The state of the Lloyd iteration: centroids, assignments, the number
of executed iterations, and whether the last executed assignment pass
produced no change. -/
structure KMState where
  cents : List (List ℚ)
  assign : List ℕ
  iters : ℕ
  stable : Bool
deriving DecidableEq, Repr

/-- The `while (changed && iterations < maxIterations)` loop, common to
both files: run an assignment pass, update the centroids, and stop when a
pass changes nothing or the fuel (`maxIterations`) is exhausted. -/
def kmLoop (pass : List (List ℚ) → List ℕ)
    (upd : List ℕ → List (List ℚ) → List (List ℚ)) : ℕ → KMState → KMState
  | 0, s => s
  | fuel + 1, s =>
    let a2 := pass s.cents
    let s2 : KMState := ⟨upd a2 s.cents, a2, s.iters + 1, a2 == s.assign⟩
    if a2 = s.assign then s2 else kmLoop pass upd fuel s2

/-- `kmeans(points, k, maxIterations)` (`dataProcessing.js` 717–781).
`points[0].length` on an empty list throws a `TypeError` in JS, modelled
by `none`; there is no `n < k` guard in this function. -/
def kmeans (pts : List (List ℚ)) (k cap : ℕ) (rng : ℕ → ℚ) (off : ℕ) :
    Option KMState :=
  if pts = [] then none
  else
    let dim := (pts.headD []).length
    let cents := kmSeed euclideanDist pts k rng off
    some (kmLoop (assignPassWith euclideanDist pts)
      (fun a cs => updateCentroidsK pts dim a k cs) cap
      ⟨cents, List.replicate pts.length 0, 0, false⟩)

/-- `kMeansWithVectors(vectors, k, iterations)` (`textClustering.js`
11–82): throws (`Except.error`) when fewer vectors than clusters (the
source message also interpolates `k`: "Need at least ${k} vectors."; the
model keeps the fixed prefix), otherwise k-means++ seeding and the shared
Lloyd loop. -/
def kMeansWithVectors (v : List (List ℚ)) (k cap : ℕ) (rng : ℕ → ℚ)
    (off : ℕ) : Except String KMState :=
  if v.length < k then
    .error "Not enough vectors for clustering."
  else
    let cents := kmSeed euclideanDistanceT v k rng off
    .ok (kmLoop (assignPassWith euclideanDistanceT v)
      (fun a cs => updateCentroidsT v a k cs) cap
      ⟨cents, List.replicate v.length 0, 0, false⟩)

/-- The coordinate-wise mean of a nonempty family of vectors, as computed
by the `kMeansWithVectors` centroid update for a cluster containing all
vectors. -/
def meanVecT (v : List (List ℚ)) : List ℚ :=
  (List.range (v.headD []).length).map (fun d =>
    (v.map (fun w => w.getD d 0 / (v.length : ℚ))).sum)

/-! ## t-SNE (`textClustering.js` 91–344) -/

/-- `perplexity = Math.min(30, Math.max(5, Math.floor(n / 5)))`. -/
def tsnePerplexity (n : ℕ) : ℕ := min 30 (max 5 (n / 5))

/-- The pairwise distance matrix of `tSNEProjection` (lines 97–103). -/
def tsneDistances (vs : List (List ℚ)) : List (List ℚ) :=
  vs.map (fun a => vs.map (fun b => euclideanDistanceT a b))

/-- The 50-step bisection of `findSigma` (lines 210–258), threading
`(sigmaMin, sigmaMax, sigma)`: Gaussian affinities at the current sigma,
normalised; Shannon entropy (skipping masses below `1e-10`); accept within
`0.01` of the target, otherwise bisect. -/
def findSigmaAux (ds : List ℚ) (target : ℚ) (i : ℕ) :
    ℕ → ℚ → ℚ → ℚ → ℚ
  | 0, _, _, sigma => sigma
  | fuel + 1, smin, smax, sigma =>
    let probs := (List.range ds.length).map (fun j =>
      if i = j then 0 else jsExp (-(ds.getD j 0) ^ 2 / (2 * sigma ^ 2)))
    let ssum := probs.sum
    let normed := probs.map (fun p => p / ssum)
    let entropy := (normed.map (fun p =>
      if p > 1 / 10000000000 then -(p * jsLog p) else 0)).sum
    if |entropy - target| < 1 / 100 then sigma
    else if entropy < target then
      findSigmaAux ds target i fuel sigma smax ((sigma + smax) / 2)
    else
      findSigmaAux ds target i fuel smin sigma ((sigma + smin) / 2)

/-- `findSigma(distances, perplexity, i)`: bisect for the bandwidth whose
affinity entropy matches `log(perplexity)`, within `[1e-4, 1000]`,
starting at `1`. -/
def findSigma (ds : List ℚ) (perp : ℕ) (i : ℕ) : ℚ :=
  findSigmaAux ds (jsLog (perp : ℚ)) i 50 (1 / 10000) 1000 1

/-- `convertDistancesToProbabilities` (lines 170–201): per-row Gaussian
affinities at the row's calibrated sigma, row-normalised, then
symmetrised by averaging and dividing by `2n`. -/
def convertDistancesToProbabilities (dists : List (List ℚ)) (perp : ℕ) :
    List (List ℚ) :=
  let n := dists.length
  let rows := (List.range n).map (fun i =>
    let row := dists.getD i []
    let sigma := findSigma row perp i
    let pr := (List.range n).map (fun j =>
      if i = j then 0 else jsExp (-(row.getD j 0) ^ 2 / (2 * sigma ^ 2)))
    let s := pr.sum
    pr.map (fun p => p / s))
  (List.range n).map (fun i => (List.range n).map (fun j =>
    (((rows.getD i []).getD j 0) + ((rows.getD j []).getD i 0)) / (2 * (n : ℚ))))

/-- `calculateGradient` (lines 268–312): Student's-t low-dimensional
affinities normalised over all ordered pairs, then the exaggerated
KL gradient. -/
def calculateGradient (pts : List (ℚ × ℚ)) (probs : List (List ℚ))
    (ex : ℚ) : List (ℚ × ℚ) :=
  let n := pts.length
  let q := fun i j =>
    1 / (1 + ((pts.getD i (0, 0)).1 - (pts.getD j (0, 0)).1) ^ 2 +
      ((pts.getD i (0, 0)).2 - (pts.getD j (0, 0)).2) ^ 2)
  let qSum := ∑ i ∈ Finset.range n, ∑ j ∈ Finset.range n,
    (if i = j then 0 else q i j)
  let qn := fun i j => (if i = j then (0 : ℚ) else q i j) / qSum
  (List.range n).map (fun i =>
    (∑ j ∈ Finset.range n, (if i = j then 0 else
        4 * ((probs.getD i []).getD j 0 * ex - qn i j) * qn i j *
          ((pts.getD i (0, 0)).1 - (pts.getD j (0, 0)).1)),
     ∑ j ∈ Finset.range n, (if i = j then 0 else
        4 * ((probs.getD i []).getD j 0 * ex - qn i j) * qn i j *
          ((pts.getD i (0, 0)).2 - (pts.getD j (0, 0)).2))))

/-- The per-point mean used by `normalizePoints` (accumulated as
`point[d] / points.length`). -/
def npMean1 (pts : List (ℚ × ℚ)) : ℚ := (pts.map (fun p => p.1 / (pts.length : ℚ))).sum

/-- Second axis mean of `normalizePoints`. -/
def npMean2 (pts : List (ℚ × ℚ)) : ℚ := (pts.map (fun p => p.2 / (pts.length : ℚ))).sum

/-- First axis variance of `normalizePoints`. -/
def npVar1 (pts : List (ℚ × ℚ)) : ℚ :=
  (pts.map (fun p => (p.1 - npMean1 pts) ^ 2 / (pts.length : ℚ))).sum

/-- Second axis variance of `normalizePoints`. -/
def npVar2 (pts : List (ℚ × ℚ)) : ℚ :=
  (pts.map (fun p => (p.2 - npMean2 pts) ^ 2 / (pts.length : ℚ))).sum

/-- `normalizePoints` (`textClustering.js` 318–344): recenter to zero mean
and rescale each axis by its standard deviation, guarding a zero scale
with `std[d] || 1`; the empty list is returned unchanged. -/
def normalizePoints (pts : List (ℚ × ℚ)) : List (ℚ × ℚ) :=
  if pts = [] then pts
  else
    let m1 := npMean1 pts
    let m2 := npMean2 pts
    let s1 := if jsSqrt (npVar1 pts) = 0 then 1 else jsSqrt (npVar1 pts)
    let s2 := if jsSqrt (npVar2 pts) = 0 then 1 else jsSqrt (npVar2 pts)
    pts.map (fun p => ((p.1 - m1) / s1, (p.2 - m2) / s2))

/-- One iteration of the `tSNEProjection` optimisation loop (lines
120–136): gradient with early exaggeration `12` for the first fifth of
the iterations, learning-rate-`100` update, and a renormalisation every
50 iterations. -/
def tsneStep (probs : List (List ℚ)) (iterations iter : ℕ)
    (pts : List (ℚ × ℚ)) : List (ℚ × ℚ) :=
  let ex : ℚ := if iter < iterations / 5 then 12 else 1
  let g := calculateGradient pts probs ex
  let upd := (List.range pts.length).map (fun i =>
    ((pts.getD i (0, 0)).1 - 100 * (g.getD i (0, 0)).1,
     (pts.getD i (0, 0)).2 - 100 * (g.getD i (0, 0)).2))
  if iter % 50 = 0 then normalizePoints upd else upd

/-- The optimisation loop, by remaining fuel and current iteration index. -/
def tsneLoop (probs : List (List ℚ)) (iterations : ℕ) :
    ℕ → ℕ → List (ℚ × ℚ) → List (ℚ × ℚ)
  | 0, _, pts => pts
  | fuel + 1, iter, pts =>
    tsneLoop probs iterations fuel (iter + 1) (tsneStep probs iterations iter pts)

/-- `tSNEProjection(vectors, iterations)` (lines 91–142): pairwise
distances, perplexity-calibrated affinities, near-origin random
initialisation (`Math.random() * 0.0001` per coordinate), the
optimisation loop, and a final `normalizePoints`. -/
def tSNEProjection (vs : List (List ℚ)) (iterations : ℕ) (rng : ℕ → ℚ)
    (off : ℕ) : List (ℚ × ℚ) :=
  if vs = [] then []
  else
    let dists := tsneDistances vs
    let probs := convertDistancesToProbabilities dists (tsnePerplexity vs.length)
    let pts0 := (List.range vs.length).map (fun i =>
      (rng (off + 2 * i) * (1 / 10000), rng (off + 2 * i + 1) * (1 / 10000)))
    normalizePoints (tsneLoop probs iterations iterations 0 pts0)

/-! ## `processVectorData` (`textClustering.js` 351–417) -/

/-- An input point of `processVectorData`: visible text plus the
precomputed dense vector (the model types the `vector` field as present;
`!vectors[0]` in the source detects a missing field). -/
structure VPoint where
  text : String
  vector : List ℚ
deriving DecidableEq, Repr

/-- The input object of `processVectorData`; `clusterCount` is `0` when
the JS field is absent (both are falsy, so `data.clusterCount || 5`
yields `5` for either). -/
structure VData where
  points : List VPoint
  clusterCount : ℕ
deriving DecidableEq, Repr

/-- An output point of `processVectorData`: the input point with 2-D
coordinates and a cluster id attached. -/
structure OutPoint where
  text : String
  vector : List ℚ
  coordinates : ℚ × ℚ
  cluster : ℕ
deriving DecidableEq, Repr

/-- A cluster statistics entry of `processVectorData`. -/
structure TCluster where
  id : ℕ
  size : ℕ
  keyTerms : List String
  samples : List String
deriving DecidableEq, Repr

/-- The output of `processVectorData`. -/
structure PVResult where
  points : List OutPoint
  clusters : List TCluster
  clusterCount : ℕ
deriving DecidableEq, Repr

/-- `point.text.toLowerCase().split(/\W+/).filter(w => w.length > 3)`:
the words of length > 3 of the lowercased text (empty boundary pieces of
the raw split have length 0 and are dropped by the same filter). -/
def jsWordsLong (s : String) : List String :=
  ((splitTok (fun c => !jsWordChar c) (s.data.map Char.toLower)).filter
    (fun t => decide (t.length > 3))).map String.mk

/-- Increment a key in an insertion-ordered JS-object tally
(`wordCounts[word] = (wordCounts[word] || 0) + 1`). -/
def tallyInc : List (String × ℕ) → String → List (String × ℕ)
  | [], w => [(w, 1)]
  | (x, c) :: rest, w =>
    if x = w then (x, c + 1) :: rest else (x, c) :: tallyInc rest w

/-- Tally a list of words in insertion order. -/
def tallyWords (ws : List String) : List (String × ℕ) := ws.foldl tallyInc []

/-- Stable descending insertion by natural-number count
(`sort((a, b) => b[1] - a[1])`). -/
def insertDescN (x : String × ℕ) : List (String × ℕ) → List (String × ℕ)
  | [] => [x]
  | y :: ys => if x.2 ≥ y.2 then x :: y :: ys else y :: insertDescN x ys

/-- Stable sort by descending count. -/
def sortPairsDescN (l : List (String × ℕ)) : List (String × ℕ) :=
  l.foldr insertDescN []

/-- The cluster-statistics loop of `processVectorData` (lines 379–410):
for each cluster id, the member points; empty clusters are SKIPPED
(`if (clusterPoints.length === 0) continue`), otherwise key terms by word
frequency (top 10) and up to 5 sample texts. -/
def pvClusters (updated : List OutPoint) (k : ℕ) : List TCluster :=
  (List.range k).filterMap (fun c =>
    let cps := updated.filter (fun p => p.cluster == c)
    if cps = [] then none
    else some
      { id := c
        size := cps.length
        keyTerms := ((sortPairsDescN (tallyWords
          (cps.flatMap (fun p => jsWordsLong p.text)))).take 10).map (fun e => e.1)
        samples := (cps.take 5).map (fun p => p.text) })

/-- `processVectorData(data)` (lines 351–417): throws on a missing/empty
point list, projects the vectors with t-SNE, clusters them with
`kMeansWithVectors` (k = `clusterCount || 5`, propagating its exception),
tags each point, and collects the per-cluster statistics; the reported
`clusterCount` is the number of NON-empty clusters. -/
def processVectorData (d : VData) (rng : ℕ → ℚ) : Except String PVResult :=
  if d.points = [] then .error "Invalid data for vector processing"
  else
    let vectors := d.points.map (fun p => p.vector)
    let coords := tSNEProjection vectors 1000 rng 0
    let k := if d.clusterCount = 0 then 5 else d.clusterCount
    match kMeansWithVectors vectors k 50 rng (2 * vectors.length) with
    | .error e => .error e
    | .ok km =>
      let updated := (List.range d.points.length).map (fun i =>
        let p := d.points.getD i ⟨"", []⟩
        OutPoint.mk p.text p.vector (coords.getD i (0, 0)) (km.assign.getD i 0))
      let clusters := pvClusters updated k
      .ok ⟨updated, clusters, clusters.length⟩

/-! ## `clusterTexts` (`dataProcessing.js` 1273–1538) and its mock
fallback (`generateMockClusteringData`, 1541–1670) -/

/-- An input record of `clusterTexts`; a missing `content`/`text` field is
the empty string (both are falsy in JS). -/
structure CItem where
  content : String
  text : String
deriving DecidableEq, Repr

/-- A plotted point of the clustering result. -/
structure CPoint where
  id : ℕ
  text : String
  coordinates : List ℚ
  cluster : ℕ
deriving DecidableEq, Repr

/-- A cluster summary of the clustering result (`name` is only populated
by the mock generator; the normal path does not set it, modelled as `""`).
The source's `example` field is called `exampleText` here because
`example` is a Lean keyword. -/
structure CCluster where
  id : ℕ
  name : String
  size : ℕ
  keyTerms : List String
  exampleText : String
deriving DecidableEq, Repr

/-- The top-level clustering result structure. -/
structure CResult where
  points : List CPoint
  clusters : List CCluster
  clusterCount : ℕ
deriving DecidableEq, Repr

/-- `item.content || item.text || ''`. -/
def itemText (it : CItem) : String := if it.content ≠ "" then it.content else it.text

/-- The usable raw texts (lines 1286–1294): per item the
`content || text` field, kept when nonempty after trimming. -/
def usableTexts (data : List CItem) : List String :=
  (data.map itemText).filter (fun t => t.trim ≠ "")

/-- The preprocessed texts (lines 1304–1316): `preprocessText` per text,
kept when truthy and nonempty after trimming. -/
def processedOf (texts : List String) : List String :=
  (texts.map preprocessText).filter (fun p => p ≠ "" && p.trim ≠ "")

/-- The vocabulary (lines 1334–1353): the terms of every document's
`listTerms`, first-seen order, truthy names only. -/
def allTermsOf (docs : List String) : List String :=
  firstSeen (((List.range docs.length).flatMap (fun i =>
    (mockListTerms docs i).map (fun t => t.1))).filter (fun t => t ≠ ""))

/-- One document vector (lines 1362–1373): the term-weight object built
from `listTerms(i)` (weights are exact here, so the `isNaN` filter of the
source is inert). -/
def termVecOf (docs : List String) (i : ℕ) : TermVec :=
  (mockListTerms docs i).filter (fun t => t.1 ≠ "")

/-- The document vectors (lines 1362–1382): one term-weight object per
document, only nonempty objects kept. -/
def docVectorsOf (docs : List String) : List TermVec :=
  ((List.range docs.length).map (termVecOf docs)).filter (fun v => v ≠ [])

/-- The names of the five mock clusters. -/
def mockNames : List String :=
  ["User Interface Experience", "Performance Optimization",
   "Security Protocols", "Data Management", "System Architecture"]

/-- The key terms of the five mock clusters. -/
def mockTerms : List (List String) :=
  [["interface", "design", "navigation", "usability", "responsive"],
   ["speed", "latency", "optimization", "efficiency", "throughput"],
   ["security", "encryption", "authentication", "vulnerability", "protection"],
   ["database", "storage", "queries", "retrieval", "collection"],
   ["architecture", "infrastructure", "framework", "integration", "microservice"]]

/-- The realistic text snippets of the five mock clusters (5 × 7). -/
def mockTextsTable : List (List String) :=
  [["The user interface needs better navigation elements to guide users through the checkout process.",
    "We need to overhaul the design of the dashboard to make key metrics more visible at a glance.",
    "The responsive design breaks on certain tablet devices when switching from portrait to landscape.",
    "Users have reported confusion with the current menu structure during usability testing.",
    "The latest interface update has significantly improved the overall user experience according to satisfaction scores.",
    "The navigation drawer should contain the most frequently accessed items based on our analytics.",
    "Consider implementing more intuitive design patterns for first-time users of the application."],
   ["The API request latency has increased by 15% since the last deployment.",
    "We need to optimize the database queries that are causing performance bottlenecks during peak hours.",
    "After implementing the caching layer, we saw a 30% improvement in response times.",
    "The new efficiency algorithms have reduced CPU utilization while maintaining throughput.",
    "Performance testing indicates we can handle twice the current load after the optimization work.",
    "The image processing pipeline needs optimization to reduce the processing time for large files.",
    "Resource utilization is suboptimal during the data aggregation process."],
   ["The security audit revealed potential vulnerabilities in the authentication process.",
    "We need to implement stronger encryption for sensitive user data in transit and at rest.",
    "The protection mechanisms for API endpoints need to be enhanced with rate limiting.",
    "Additional security protocols are required for compliance with the new regulations.",
    "The vulnerability assessment identified several issues in the third-party libraries we\x27re using.",
    "Two-factor authentication implementation should be prioritized for admin accounts.",
    "The security team recommended implementing certificate pinning for the mobile application."],
   ["The database schema requires normalization to improve query performance.",
    "Data retrieval operations are taking too long when filtering across multiple collections.",
    "We need to implement more efficient storage solutions for the increasing volume of user data.",
    "The current database architecture doesn\x27t scale well with our growing user base.",
    "Implementing proper indexing strategies could significantly improve our query performance.",
    "Data integrity issues have been identified in the customer information tables.",
    "We should consider implementing a data caching layer to reduce database load."],
   ["The current system architecture needs to be refactored to support the new features.",
    "We should consider moving to a microservice architecture for better scalability.",
    "The integration points between systems are creating single points of failure.",
    "The framework we\x27re using doesn\x27t provide adequate support for our use cases.",
    "Our infrastructure needs to be more resilient to handle regional outages.",
    "The service mesh implementation has improved communication between microservices.",
    "We need to redesign the system to accommodate the new regulatory requirements."]]

/-- The inner point loop of the mock generator (lines 1642–1657): `count`
points around the cluster centre, each consuming six draws (three per
axis), with text `clusterTexts[i][j % 7]` and sequential ids.  Arguments:
cluster id `i`, centre `(cx, cy)`, text row, point index `j`, remaining
count, draw counter, next id. -/
def mockPtsAux (rng : ℕ → ℚ) (i : ℕ) (cx cy : ℚ) (row : List String) :
    ℕ → ℕ → ℕ → ℕ → List CPoint
  | _, 0, _, _ => []
  | j, count + 1, ctr, pid =>
    let offX := (rng ctr + rng (ctr + 1) + rng (ctr + 2) - 3 / 2) * (1 / 2)
    let offY := (rng (ctr + 3) + rng (ctr + 4) + rng (ctr + 5) - 3 / 2) * (1 / 2)
    ⟨pid, row.getD (j % row.length) "", [cx + offX, cy + offY], i⟩ ::
      mockPtsAux rng i cx cy row (j + 1) count (ctr + 6) (pid + 1)

/-- The outer point loop of the mock generator (lines 1633–1658): for
each cluster (id paired with its drawn size), two draws for the centre
followed by the inner loop, threading the draw counter and the point id. -/
def mockPointsOuter (rng : ℕ → ℚ) : List (ℕ × ℕ) → ℕ → ℕ → List CPoint
  | [], _, _ => []
  | (i, size) :: rest, ctr, pid =>
    let cx := rng ctr * 4 - 2
    let cy := rng (ctr + 1) * 4 - 2
    mockPtsAux rng i cx cy (mockTextsTable.getD i []) 0 size (ctr + 2) pid ++
      mockPointsOuter rng rest (ctr + 2 + 6 * size) (pid + size)

/-- `generateMockClusteringData` (lines 1541–1670): five fixed topic
clusters with drawn sizes in `[5, 14]`, points scattered around random
centres, and cluster sizes finally recomputed from the actual point
counts.  Draw order: five sizes, then per cluster a centre (two draws) and
six draws per point. -/
def generateMockClusteringData (rng : ℕ → ℚ) (off : ℕ) : CResult :=
  let sizes := (List.range 5).map (fun i => floorIdx (rng (off + i)) 10 + 5)
  let clusters0 := (List.range 5).map (fun i =>
    CCluster.mk i (mockNames.getD i "") (sizes.getD i 0) (mockTerms.getD i [])
      ((mockTextsTable.getD i []).getD 0 ""))
  let points := mockPointsOuter rng ((List.range 5).zip sizes) (off + 5) 0
  let clusters := clusters0.map (fun c =>
    { c with size := (points.filter (fun p => p.cluster == c.id)).length })
  ⟨points, clusters, 5⟩

/-- The cluster-summary loop of `clusterTexts` (lines 1473–1530): for
EVERY cluster id `0..k-1` one summary entry is pushed — a placeholder
`{size: 0, keyTerms: ['Empty cluster'], example: ''}` when the cluster has
no members, otherwise the five most frequent top-5 TF-IDF terms of the
member documents and the first member's text as example.  (The
`catch`-branch placeholder of the source is unreachable in the total
model.) -/
def summarizeClusters (docs : List String) (points : List CPoint) (k : ℕ) :
    List CCluster :=
  (List.range k).map (fun i =>
    let cps := points.filter (fun p => p.cluster == i)
    if cps = [] then ⟨i, "", 0, ["Empty cluster"], ""⟩
    else
      let tallied := cps.foldl (fun m p =>
        if p.id < docs.length then
          (((mockListTerms docs p.id).take 5).filter (fun t => t.1 ≠ "")).foldl
            (fun m2 t => tallyInc m2 t.1) m
        else m) []
      let keyTerms := ((sortPairsDescN tallied).take 5).map (fun e => e.1)
      ⟨i, "", cps.length,
        if keyTerms = [] then ["No key terms found"] else keyTerms,
        (cps.headD ⟨0, "", [], 0⟩).text⟩)

/-- `clusterTexts(data)` (lines 1273–1538): extract usable texts,
preprocess, build TF-IDF object vectors, compute the similarity and
distance matrices, project with `simpleMDS`, cluster the 2-D coordinates
with `kmeans` (k = `min(5, max(2, ⌊n/10⌋))`, cap 10), and summarise.
Every degenerate-input guard (no data, fewer than 2 usable texts, fewer
than 2 preprocessed texts, empty vocabulary, fewer than 2 document
vectors) returns `generateMockClusteringData()` instead of an empty
result.  The `validCoordinates` NaN-guard of the source is inert over
exact rationals, and the `catch` fallback around `kmeans` is modelled by
the `none` branch (unreachable here because the coordinate list is
nonempty whenever it is reached). -/
def clusterTexts (data : List CItem) (rng : ℕ → ℚ) : CResult :=
  if data = [] then generateMockClusteringData rng 0
  else
    let texts := usableTexts data
    if texts.length < 2 then generateMockClusteringData rng 0
    else
      let processed := processedOf texts
      if processed.length < 2 then generateMockClusteringData rng 0
      else if allTermsOf processed = [] then generateMockClusteringData rng 0
      else
        let docVectors := docVectorsOf processed
        if docVectors.length < 2 then generateMockClusteringData rng 0
        else
          let dist := distanceMatrixOf docVectors
          let valid := simpleMDS dist 2 rng 0
          let k := min 5 (max 2 (processed.length / 10))
          let assign := match kmeans valid k 10 rng (2 * dist.length) with
            | some s => s.assign
            | none => (List.range processed.length).map (fun i =>
                floorIdx (rng (2 * dist.length + i)) k)
          let points := (List.range processed.length).filterMap (fun i =>
            if i < texts.length && i < valid.length && i < assign.length then
              some (CPoint.mk i (texts.getD i "") (valid.getD i []) (assign.getD i 0))
            else none)
          ⟨points, summarizeClusters processed points k, k⟩

/-- Decidable equality for `Except` results (needed to evaluate concrete
runs of the throwing clusterer). -/
def exceptDecEq {α β : Type} [DecidableEq α] [DecidableEq β] :
    DecidableEq (Except α β)
  | .error a, .error b =>
    if h : a = b then isTrue (by rw [h])
    else isFalse (fun hh => h (Except.error.inj hh))
  | .error _, .ok _ => isFalse (fun h => Except.noConfusion h)
  | .ok _, .error _ => isFalse (fun h => Except.noConfusion h)
  | .ok a, .ok b =>
    if h : a = b then isTrue (by rw [h])
    else isFalse (fun hh => h (Except.ok.inj hh))

instance {α β : Type} [DecidableEq α] [DecidableEq β] :
    DecidableEq (Except α β) := exceptDecEq

/-! ## General list lemmas -/

lemma getD_map_range {α : Type} (n : ℕ) (f : ℕ → α) (i : ℕ) (h : i < n)
    (d : α) : ((List.range n).map f).getD i d = f i := by
  rw [List.getD_eq_getElem?_getD, List.getElem?_map, List.getElem?_range h]
  rfl

lemma getD_replicate {α : Type} (n i : ℕ) (x : α) :
    (List.replicate n x).getD i x = x := by
  induction n generalizing i with
  | zero => rfl
  | succ m ih =>
    cases i with
    | zero => rfl
    | succ j => simp only [List.replicate_succ, List.getD_cons_succ]; exact ih j

lemma foldl_fixpoint {A B : Type} (f : B → A → B) (x : B)
    (h : ∀ a, f x a = x) : ∀ l : List A, l.foldl f x = x
  | [] => rfl
  | a :: l => by rw [List.foldl_cons, h a]; exact foldl_fixpoint f x h l

lemma count_sum_of_bounded (a : List ℕ) (k : ℕ) (h : ∀ x ∈ a, x < k) :
    ∑ j ∈ Finset.range k, a.count j = a.length := by
  induction a with
  | nil => simp
  | cons x xs ih =>
    have hx : x < k := h x (List.mem_cons_self x xs)
    have hxs : ∀ y ∈ xs, y < k := fun y hy => h y (List.mem_cons_of_mem x hy)
    have : ∀ j, (x :: xs).count j = xs.count j + if x = j then 1 else 0 := by
      intro j
      rw [List.count_cons]
      simp [beq_iff_eq]
    simp only [this]
    rw [Finset.sum_add_distrib, ih hxs]
    have : ∑ j ∈ Finset.range k, (if x = j then 1 else 0) = 1 := by
      rw [Finset.sum_ite_eq (Finset.range k) x (fun _ => 1)]
      simp [Finset.mem_range.mpr hx]
    rw [this]
    simp [List.length_cons]

/-! ## C2: cosine similarity -/

/-- C2: for every vector `v` with nonzero (squared) norm whose norm is
represented exactly by the square root (true of every perfect square, and
of every vector in exact real arithmetic), `cosineSimilarity v v = 1`;
and whenever either argument has zero norm (with matching lengths, as for
all same-corpus vectors), `cosineSimilarity` returns `0` — never a
division by zero. -/
theorem cosineSimilarity_self_one_zero_norm_zero
    (v a b : List ℚ) (hv : normSq v ≠ 0)
    (hsq : jsSqrt (normSq v) ^ 2 = normSq v)
    (hab : b.length = a.length) :
    cosineSimilarity v v = 1 ∧
      (normSq a = 0 ∨ normSq b = 0 → cosineSimilarity a b = 0) := by
  constructor
  · show cosineCore v.length _ _ = 1
    simp only [cosineCore]
    rw [if_neg]
    · have : jsSqrt (normSq v) * jsSqrt (normSq v) = normSq v := by
        rw [← pow_two (jsSqrt (normSq v))]; exact hsq
      show (∑ i ∈ Finset.range v.length, v.getD i 0 * v.getD i 0) /
        (jsSqrt (∑ i ∈ Finset.range v.length, v.getD i 0 * v.getD i 0) *
          jsSqrt (∑ i ∈ Finset.range v.length, v.getD i 0 * v.getD i 0)) = 1
      rw [show (∑ i ∈ Finset.range v.length, v.getD i 0 * v.getD i 0) = normSq v from rfl,
        this]
      exact div_self hv
    · rw [not_or]
      exact ⟨hv, hv⟩
  · intro h
    show cosineCore a.length _ _ = 0
    simp only [cosineCore]
    rw [if_pos]
    rcases h with h0 | h0
    · exact Or.inl h0
    · right
      rw [show (∑ i ∈ Finset.range a.length, b.getD i 0 * b.getD i 0) =
          ∑ i ∈ Finset.range b.length, b.getD i 0 * b.getD i 0 from by rw [hab]]
      exact h0

/-- Witness for C2 at `v = [3,4]` (norm 5), `a = [0]` (zero norm),
`b = [1]`. -/
theorem cosineSimilarity_self_one_zero_norm_zero_witness :
    (normSq [(3 : ℚ), 4] ≠ 0 ∧
      jsSqrt (normSq [(3 : ℚ), 4]) ^ 2 = normSq [(3 : ℚ), 4] ∧
      ([(1 : ℚ)] : List ℚ).length = ([(0 : ℚ)] : List ℚ).length) ∧
    (cosineSimilarity [(3 : ℚ), 4] [(3 : ℚ), 4] = 1 ∧
      (normSq [(0 : ℚ)] = 0 ∨ normSq [(1 : ℚ)] = 0 →
        cosineSimilarity [(0 : ℚ)] [(1 : ℚ)] = 0)) :=
  ⟨⟨by with_unfolding_all decide, by with_unfolding_all decide, by decide⟩,
    cosineSimilarity_self_one_zero_norm_zero [3, 4] [0] [1]
      (by with_unfolding_all decide) (by with_unfolding_all decide) (by decide)⟩

/-! ## C10: the similarity matrix of `clusterTexts` is identically zero -/

/-- C10: `clusterTexts` builds document vectors as plain term-to-weight
objects while `cosineSimilarity` iterates numeric indices up to
`vecA.length`; an object has no `length`, so the loop body never runs,
both accumulated norms are `0`, and the function returns `0` for every
pair — hence every entry of the similarity matrix, the diagonal included,
is `0`, and the plain value `0` also passes the NaN/Infinity guard
untouched. -/
theorem simMatrixOf_all_zero (vs : List TermVec) (i j : ℕ)
    (hi : i < vs.length) (hj : j < vs.length) :
    ((simMatrixOf vs).getD i []).getD j 1 = 0 := by
  unfold simMatrixOf
  rw [getD_map_range vs.length _ i hi, getD_map_range vs.length _ j hj]
  unfold simEntry cosineSimilarityOnObj cosineCore objVecLength
  simp [jsIsNaN, jsIsFinite]

/-- Witness for C10 on a diagonal entry of a two-document matrix with
nonempty term objects. -/
theorem simMatrixOf_all_zero_witness :
    ((0 : ℕ) < ([[("a", (1 : ℚ))], [("b", (2 : ℚ))]] : List TermVec).length) ∧
    ((simMatrixOf [[("a", (1 : ℚ))], [("b", (2 : ℚ))]]).getD 0 []).getD 0 1 = 0 :=
  ⟨by decide,
    simMatrixOf_all_zero [[("a", 1)], [("b", 2)]] 0 0 (by decide) (by decide)⟩

/-! ## C4: behaviour of the two clusterers on fewer vectors than clusters -/

/-- C4 (amended): the vector clusterer `kMeansWithVectors` reports an
error condition (throws) whenever the number of vectors is smaller than
`k`. -/
theorem kMeansWithVectors_insufficient_errors (v : List (List ℚ))
    (k cap : ℕ) (rng : ℕ → ℚ) (off : ℕ) (h : v.length < k) :
    kMeansWithVectors v k cap rng off =
      .error "Not enough vectors for clustering." := by
  unfold kMeansWithVectors
  rw [if_pos h]

/-- Witness for C4's amended theorem: one vector, two requested clusters. -/
theorem kMeansWithVectors_insufficient_errors_witness :
    (([[(0 : ℚ)]] : List (List ℚ)).length < 2) ∧
    kMeansWithVectors [[(0 : ℚ)]] 2 50 rng0 0 =
      .error "Not enough vectors for clustering." :=
  ⟨by decide, kMeansWithVectors_insufficient_errors [[0]] 2 50 rng0 0 (by decide)⟩

/-- Counterexample to C4 as stated: the coordinate clusterer `kmeans` of
`dataProcessing.js` has NO such check — with one point and `k = 2` it
returns a normal clustering result (with a duplicated centroid) instead of
reporting an error. -/
theorem kmeans_insufficient_returns_normally :
    ([[(0 : ℚ)]] : List (List ℚ)).length < 2 ∧
    kmeans [[(0 : ℚ)]] 2 10 rng0 0 = some ⟨[[0], [0]], [0], 1, true⟩ := by
  with_unfolding_all decide

/-! ## C7: the gradient target of `simpleMDS` in the `clusterTexts`
pipeline -/

/-- C7 (code bug): `clusterTexts` already converts similarities to
distances (`1 - sim`, line 1408) and `simpleMDS` converts AGAIN
(`targetDist = 1 - distanceMatrix[i][j]`, line 697, commented
"Convert similarity to distance"), so the target distance actually used
for the pair `(0, 1)` of this two-document corpus is the similarity `0`
itself, not `1 - similarity = 1` as the spec and simpleMDS's own comment
require.  (The discrepancy is `embeddingDist - targetDist`, as claimed.) -/
theorem mdsTargetDist_is_similarity_not_one_minus :
    mdsTargetDist (distanceMatrixOf (docVectorsOf ["alpha beta", "gamma delta"])) 0 1 = 0 ∧
    1 - ((simMatrixOf (docVectorsOf ["alpha beta", "gamma delta"])).getD 0 []).getD 1 0 = 1 ∧
    mdsTargetDist (distanceMatrixOf (docVectorsOf ["alpha beta", "gamma delta"])) 0 1 =
      ((simMatrixOf (docVectorsOf ["alpha beta", "gamma delta"])).getD 0 []).getD 1 0 := by
  with_unfolding_all decide

/-! ## C5: reducer output normalization -/

/-- Counterexample to C5 as stated: on the well-formed 2-document distance
matrix that the pipeline itself produces (all entries `1`), with a
legitimate random stream, `simpleMDS` returns two coincident points
`(-1, -1)` — the initial embedding distance is `0`, every pair is skipped
by the `1e-6` guard, and no normalization is ever applied — so axis 0 has
mean `-1` and variance `0`, far outside mean `0 ± 0.05` / std `1 ± 0.05`. -/
theorem simpleMDS_output_not_normalized :
    simpleMDS [[1, 1], [1, 1]] 2 rng0 0 = [[-1, -1], [-1, -1]] ∧
    meanAxis (simpleMDS [[1, 1], [1, 1]] 2 rng0 0) 0 = -1 ∧
    varAxis (simpleMDS [[1, 1], [1, 1]] 2 rng0 0) 0 = 0 ∧
    ¬(|meanAxis (simpleMDS [[1, 1], [1, 1]] 2 rng0 0) 0 - 0| ≤ 1 / 20) := by
  have hinit : mdsInit ([[(1 : ℚ), 1], [1, 1]] : List (List ℚ)).length 2 rng0 0 =
      [[-1, -1], [-1, -1]] := by with_unfolding_all decide
  have hsweep : ∀ a : ℕ,
      (fun (pts : List (List ℚ)) (_ : ℕ) => mdsSweep [[1, 1], [1, 1]] 2 pts)
        [[-1, -1], [-1, -1]] a = [[-1, -1], [-1, -1]] := by
    intro a
    show mdsSweep [[1, 1], [1, 1]] 2 [[-1, -1], [-1, -1]] = [[-1, -1], [-1, -1]]
    with_unfolding_all decide
  have hmds : simpleMDS [[1, 1], [1, 1]] 2 rng0 0 = [[-1, -1], [-1, -1]] := by
    unfold simpleMDS
    rw [hinit, foldl_fixpoint _ _ hsweep]
  refine ⟨hmds, ?_, ?_, ?_⟩ <;> rw [hmds] <;> with_unfolding_all decide

/-! ## C6: idempotence of preprocessing -/

/-- Counterexample to C6 as stated: stemming can shorten a token below
the length-3 filter, so preprocessing is not idempotent.  `"bus"` stems to
`"bu"` (the `'s'` rule; the npm Porter stemmer gives the same result), and
re-preprocessing `"bu"` drops the too-short token entirely. -/
theorem preprocessText_not_idempotent :
    preprocessText "bus" = "bu" ∧
    preprocessText (preprocessText "bus") ≠ preprocessText "bus" := by
  with_unfolding_all decide

/-! ## C8: the k = 1 run of the clusterer -/

/-- Counterexample to C8 as stated: with `k = 1` on `[[0], [2]]` the
returned centroid is `[1]`, the mean of the inputs — the seeded centroid
is one of the input vectors, but the first Lloyd iteration replaces it by
the coordinate-wise mean before the loop exits, so the RETURNED centroid
is not an input vector. -/
theorem kMeansWithVectors_k1_returns_mean_not_input :
    kMeansWithVectors [[(0 : ℚ)], [2]] 1 50 rng0 0 =
      .ok ⟨[[1]], [0, 0], 1, true⟩ ∧
    [(1 : ℚ)] ∉ ([[(0 : ℚ)], [2]] : List (List ℚ)) := by
  with_unfolding_all decide

/-! ## C3: k-means invariants -/

lemma foldl_min_mem (x : ℚ) (xs : List ℚ) : xs.foldl min x ∈ x :: xs := by
  induction xs generalizing x with
  | nil => simp
  | cons y ys ih =>
    rw [List.foldl_cons]
    have h3 := ih (min x y)
    rcases List.mem_cons.mp h3 with h2 | h2
    · rw [h2]
      rcases min_choice x y with h | h <;> rw [h]
      · exact List.mem_cons_self _ _
      · exact List.mem_cons.mpr (Or.inr (List.mem_cons_self _ _))
    · exact List.mem_cons.mpr (Or.inr (List.mem_cons.mpr (Or.inr h2)))

lemma minD_mem (l : List ℚ) (h : l ≠ []) : minD l ∈ l := by
  cases l with
  | nil => exact absurd rfl h
  | cons x xs => exact foldl_min_mem x xs

lemma argminIdx_lt (l : List ℚ) (h : l ≠ []) : argminIdx l < l.length :=
  List.indexOf_lt_length.mpr (minD_mem l h)

lemma assignPass_length (dist : List ℚ → List ℚ → ℚ) (pts cs : List (List ℚ)) :
    (assignPassWith dist pts cs).length = pts.length := by
  simp [assignPassWith]

lemma assignPass_bounded (dist : List ℚ → List ℚ → ℚ) (pts cs : List (List ℚ))
    (k : ℕ) (hcs : cs.length = k) (hk : 1 ≤ k) :
    ∀ x ∈ assignPassWith dist pts cs, x < k := by
  intro x hx
  rcases List.mem_map.mp hx with ⟨p, _, hpx⟩
  have hne : cs.map (fun c => dist p c) ≠ [] := by
    intro hmap
    have := congrArg List.length hmap
    simp [hcs] at this
    omega
  have := argminIdx_lt (cs.map (fun c => dist p c)) hne
  rw [List.length_map, hcs] at this
  rw [← hpx]
  exact this
lemma kmSeedStep_length (dist : List ℚ → List ℚ → ℚ) (pts : List (List ℚ))
    (rng : ℕ → ℚ) (off : ℕ) (cents : List (List ℚ)) (t : ℕ) :
    (kmSeedStep dist pts rng off cents t).length = cents.length + 1 := by
  simp [kmSeedStep]

lemma foldl_step_length {A B : Type} (f : List A → B → List A)
    (hf : ∀ acc t, (f acc t).length = acc.length + 1) :
    ∀ (l : List B) (acc : List A), (l.foldl f acc).length = acc.length + l.length
  | [], acc => by simp
  | b :: l, acc => by
    rw [List.foldl_cons, foldl_step_length f hf l (f acc b), hf acc b,
      List.length_cons]
    omega

lemma kmSeed_length (dist : List ℚ → List ℚ → ℚ) (pts : List (List ℚ))
    (k : ℕ) (rng : ℕ → ℚ) (off : ℕ) (hk : 1 ≤ k) :
    (kmSeed dist pts k rng off).length = k := by
  unfold kmSeed
  rw [foldl_step_length (kmSeedStep dist pts rng off)
    (kmSeedStep_length dist pts rng off) (List.range (k - 1)) _]
  simp
  omega

lemma updateCentroidsK_length (pts : List (List ℚ)) (dim : ℕ) (a : List ℕ)
    (k : ℕ) (cs : List (List ℚ)) :
    (updateCentroidsK pts dim a k cs).length = k := by
  simp [updateCentroidsK]

lemma updateCentroidsT_length (pts : List (List ℚ)) (a : List ℕ) (k : ℕ)
    (cs : List (List ℚ)) :
    (updateCentroidsT pts a k cs).length = k := by
  simp [updateCentroidsT]

lemma kmLoop_invariant (pass : List (List ℚ) → List ℕ)
    (upd : List ℕ → List (List ℚ) → List (List ℚ)) (k n : ℕ)
    (hpassLen : ∀ cs, (pass cs).length = n)
    (hpassBound : ∀ cs, cs.length = k → ∀ x ∈ pass cs, x < k)
    (hupdLen : ∀ a cs, (upd a cs).length = k) :
    ∀ (fuel : ℕ) (s : KMState), s.cents.length = k → s.assign.length = n →
      (∀ x ∈ s.assign, x < k) →
      (kmLoop pass upd fuel s).cents.length = k ∧
        (kmLoop pass upd fuel s).assign.length = n ∧
        (∀ x ∈ (kmLoop pass upd fuel s).assign, x < k)
  | 0, s, hc, ha, hb => ⟨hc, ha, hb⟩
  | fuel + 1, s, hc, ha, hb => by
    rw [kmLoop]
    by_cases h : pass s.cents = s.assign
    · rw [if_pos h]
      exact ⟨hupdLen _ _, by rw [hpassLen], hpassBound s.cents hc⟩
    · rw [if_neg h]
      exact kmLoop_invariant pass upd k n hpassLen hpassBound hupdLen fuel _
        (hupdLen _ _) (hpassLen _) (hpassBound s.cents hc)

lemma kmLoop_iters_stable (pass : List (List ℚ) → List ℕ)
    (upd : List ℕ → List (List ℚ) → List (List ℚ)) :
    ∀ (fuel : ℕ) (s : KMState),
      (kmLoop pass upd fuel s).iters ≤ s.iters + fuel ∧
        ((kmLoop pass upd fuel s).iters < s.iters + fuel →
          (kmLoop pass upd fuel s).stable = true)
  | 0, s => by
    refine ⟨Nat.le_refl _, fun h => absurd h ?_⟩
    show ¬((kmLoop pass upd 0 s).iters < s.iters + 0)
    rw [kmLoop]
    omega

  | fuel + 1, s => by
    rw [kmLoop]
    by_cases h : pass s.cents = s.assign
    · rw [if_pos h]
      constructor
      · show s.iters + 1 ≤ s.iters + (fuel + 1)
        omega
      · intro _
        show (pass s.cents == s.assign) = true
        rw [h]
        exact beq_self_eq_true s.assign
    · rw [if_neg h]
      have := kmLoop_iters_stable pass upd fuel
        ⟨upd (pass s.cents) s.cents, pass s.cents, s.iters + 1,
          pass s.cents == s.assign⟩
      constructor
      · have h1 := this.1
        simp only at h1
        omega
      · intro h2
        apply this.2
        simp only
        omega

lemma kmLoop_early_stop (pass : List (List ℚ) → List ℕ)
    (upd : List ℕ → List (List ℚ) → List (List ℚ)) (fuel : ℕ) (s : KMState)
    (h : pass s.cents = s.assign) :
    kmLoop pass upd (fuel + 1) s = kmLoop pass upd 1 s := by
  rw [kmLoop, kmLoop]
  rw [if_pos h, if_pos h]
/-- C3: for every point list with `1 ≤ k ≤ n`, `kmeans` (a) returns a
normal result, (b) every returned assignment is an integer in `[0, k)`,
(c) the cluster member counts over all `k` clusters sum to exactly `n`,
(d) the number of executed Lloyd iterations is at most the cap, with the
last executed assignment pass having produced no change whenever the loop
stopped before the cap, and (e) the loop stops in exactly the iteration
whose assignment pass produces no change (extra fuel is never consumed). -/
theorem kmeans_invariants (pts : List (List ℚ)) (k cap : ℕ) (rng : ℕ → ℚ)
    (off : ℕ) (hk : 1 ≤ k) (hkn : k ≤ pts.length) :
    (∃ r, kmeans pts k cap rng off = some r) ∧
    (∀ r, kmeans pts k cap rng off = some r →
      r.assign.length = pts.length ∧
      (∀ x ∈ r.assign, x < k) ∧
      (∑ j ∈ Finset.range k, r.assign.count j) = pts.length ∧
      r.iters ≤ cap ∧
      (r.iters < cap → r.stable = true)) ∧
    (∀ (fuel : ℕ) (s : KMState),
      assignPassWith euclideanDist pts s.cents = s.assign →
      kmLoop (assignPassWith euclideanDist pts)
        (fun a cs => updateCentroidsK pts (pts.headD []).length a k cs)
        (fuel + 1) s =
      kmLoop (assignPassWith euclideanDist pts)
        (fun a cs => updateCentroidsK pts (pts.headD []).length a k cs) 1 s) := by
  have hne : pts ≠ [] := by
    intro h
    rw [h] at hkn
    simp at hkn
    omega
  have hkm : kmeans pts k cap rng off =
      some (kmLoop (assignPassWith euclideanDist pts)
        (fun a cs => updateCentroidsK pts (pts.headD []).length a k cs) cap
        ⟨kmSeed euclideanDist pts k rng off, List.replicate pts.length 0, 0,
          false⟩) := by
    unfold kmeans
    rw [if_neg hne]
  refine ⟨⟨_, hkm⟩, ?_, ?_⟩
  · intro r hr
    rw [hkm] at hr
    have hreq := (Option.some.inj hr).symm
    subst hreq
    have hinv := kmLoop_invariant (assignPassWith euclideanDist pts)
      (fun a cs => updateCentroidsK pts (pts.headD []).length a k cs) k
      pts.length
      (fun cs => assignPass_length euclideanDist pts cs)
      (fun cs hcs => assignPass_bounded euclideanDist pts cs k hcs hk)
      (fun a cs => updateCentroidsK_length pts (pts.headD []).length a k cs)
      cap
      ⟨kmSeed euclideanDist pts k rng off, List.replicate pts.length 0, 0,
        false⟩
      (kmSeed_length euclideanDist pts k rng off hk)
      (by simp)
      (by
        intro x hx
        rw [List.eq_of_mem_replicate hx]
        omega)
    have hiters := kmLoop_iters_stable (assignPassWith euclideanDist pts)
      (fun a cs => updateCentroidsK pts (pts.headD []).length a k cs) cap
      ⟨kmSeed euclideanDist pts k rng off, List.replicate pts.length 0, 0,
        false⟩
    refine ⟨hinv.2.1, hinv.2.2, ?_, ?_, ?_⟩
    · rw [count_sum_of_bounded _ k hinv.2.2]
      exact hinv.2.1
    · simpa using hiters.1
    · intro hlt
      apply hiters.2
      simpa using hlt
  · intro fuel s hs
    exact kmLoop_early_stop _ _ fuel s hs

/-- Witness for C3 on two one-dimensional points and `k = 2`. -/
theorem kmeans_invariants_witness :
    ((1 ≤ 2 ∧ 2 ≤ ([[(0 : ℚ)], [4]] : List (List ℚ)).length)) ∧
    ((∃ r, kmeans [[(0 : ℚ)], [4]] 2 10 rng0 0 = some r) ∧
      (∀ r, kmeans [[(0 : ℚ)], [4]] 2 10 rng0 0 = some r →
        r.assign.length = ([[(0 : ℚ)], [4]] : List (List ℚ)).length ∧
        (∀ x ∈ r.assign, x < 2) ∧
        (∑ j ∈ Finset.range 2, r.assign.count j) =
          ([[(0 : ℚ)], [4]] : List (List ℚ)).length ∧
        r.iters ≤ 10 ∧ (r.iters < 10 → r.stable = true)) ∧
      (∀ (fuel : ℕ) (s : KMState),
        assignPassWith euclideanDist [[(0 : ℚ)], [4]] s.cents = s.assign →
        kmLoop (assignPassWith euclideanDist [[(0 : ℚ)], [4]])
          (fun a cs => updateCentroidsK [[(0 : ℚ)], [4]]
            (([[(0 : ℚ)], [4]] : List (List ℚ)).headD []).length a 2 cs)
          (fuel + 1) s =
        kmLoop (assignPassWith euclideanDist [[(0 : ℚ)], [4]])
          (fun a cs => updateCentroidsK [[(0 : ℚ)], [4]]
            (([[(0 : ℚ)], [4]] : List (List ℚ)).headD []).length a 2 cs) 1 s)) :=
  ⟨⟨by decide, by decide⟩,
    kmeans_invariants [[0], [4]] 2 10 rng0 0 (by decide) (by decide)⟩

/-! ## C8: the k = 1 run returns the mean -/

lemma argminIdx_singleton (x : ℚ) : argminIdx [x] = 0 := by
  simp [argminIdx, minD]

lemma membersOf_all_zero (v : List (List ℚ)) :
    membersOf v (List.replicate v.length 0) 0 = v := by
  induction v with
  | nil => rfl
  | cons x xs ih =>
    simp only [List.length_cons, List.replicate_succ]
    unfold membersOf at *
    simp only [List.zip_cons_cons, List.filter_cons]
    simp only [beq_self_eq_true, if_pos, List.map_cons]
    rw [ih]

lemma assignPass_singleton (dist : List ℚ → List ℚ → ℚ) (v : List (List ℚ))
    (c : List ℚ) :
    assignPassWith dist v [c] = List.replicate v.length 0 := by
  unfold assignPassWith
  have : ∀ p : List ℚ, argminIdx ([c].map (fun c2 => dist p c2)) = 0 := by
    intro p
    simp only [List.map_cons, List.map_nil]
    exact argminIdx_singleton (dist p c)
  calc v.map (fun p => argminIdx ([c].map (fun c2 => dist p c2)))
      = v.map (fun _ => 0) := List.map_congr_left (fun p _ => this p)
    _ = List.replicate v.length 0 := by
        rw [show (fun (_ : List ℚ) => (0 : ℕ)) = Function.const (List ℚ) 0 from rfl,
          List.map_const]

/-- C8 (amended): for every nonempty vector list (of uniform dimension)
and any iteration cap of at least one, the clusterer run with `k = 1`
returns EXACTLY ONE centroid, and that centroid is the coordinate-wise
MEAN of the input vectors: the k-means++ seed is one of the inputs, but
the single Lloyd iteration (whose assignment pass changes nothing, ending
the loop) replaces it by the mean before returning. -/
theorem kMeansWithVectors_k1_mean (v : List (List ℚ)) (cap : ℕ) (rng : ℕ → ℚ)
    (off : ℕ) (hv : v ≠ []) (hcap : 1 ≤ cap)
    (_huni : ∀ w ∈ v, w.length = (v.headD []).length) :
    kMeansWithVectors v 1 cap rng off =
      .ok ⟨[meanVecT v], List.replicate v.length 0, 1, true⟩ ∧
    [meanVecT v].length = 1 := by
  constructor
  · have hlen : ¬(v.length < 1) := by
      have : 0 < v.length := List.length_pos.mpr hv
      omega
    unfold kMeansWithVectors
    rw [if_neg hlen]
    have hseed : kmSeed euclideanDistanceT v 1 rng off =
        [v.getD (floorIdx (rng off) v.length) []] := by
      unfold kmSeed
      norm_num
    rw [hseed]
    obtain ⟨f, rfl⟩ : ∃ f, cap = f + 1 := ⟨cap - 1, by omega⟩
    show Except.ok (kmLoop _ _ (f + 1) _) = _
    rw [show ∀ (pass : List (List ℚ) → List ℕ) upd s,
        kmLoop pass upd (f + 1) s =
          (let a2 := pass s.cents
           let s2 : KMState := ⟨upd a2 s.cents, a2, s.iters + 1, a2 == s.assign⟩
           if a2 = s.assign then s2 else kmLoop pass upd f s2)
      from fun _ _ _ => rfl]
    simp only
    rw [assignPass_singleton]
    rw [if_pos rfl]
    have hupd : updateCentroidsT v (List.replicate v.length 0) 1
        [v.getD (floorIdx (rng off) v.length) []] = [meanVecT v] := by
      unfold updateCentroidsT
      rw [show List.range 1 = [0] from rfl]
      simp only [List.map_cons, List.map_nil]
      rw [membersOf_all_zero]
      rw [if_neg hv]
      rfl
    rw [hupd]
    have : (List.replicate v.length 0 == List.replicate v.length 0) = true :=
      beq_self_eq_true _
    rw [this]
  · rfl
/-- Witness for C8's amended theorem on `[[2], [4]]` (mean `[3]`). -/
theorem kMeansWithVectors_k1_mean_witness :
    (([[(2 : ℚ)], [4]] : List (List ℚ)) ≠ [] ∧ 1 ≤ 50 ∧
      (∀ w ∈ ([[(2 : ℚ)], [4]] : List (List ℚ)),
        w.length = (([[(2 : ℚ)], [4]] : List (List ℚ)).headD []).length)) ∧
    (kMeansWithVectors [[(2 : ℚ)], [4]] 1 50 rng0 0 =
        .ok ⟨[meanVecT [[(2 : ℚ)], [4]]],
          List.replicate ([[(2 : ℚ)], [4]] : List (List ℚ)).length 0, 1, true⟩ ∧
      [meanVecT [[(2 : ℚ)], [4]]].length = 1) :=
  ⟨⟨by decide, by decide, by decide⟩,
    kMeansWithVectors_k1_mean [[2], [4]] 50 rng0 0 (by decide) (by decide)
      (by decide)⟩

/-! ## C5 (amended): the final normalization -/

lemma list_sum_map_div {A : Type} (l : List A) (f : A → ℚ) (c : ℚ) :
    (l.map (fun x => f x / c)).sum = (l.map f).sum / c := by
  induction l with
  | nil => simp
  | cons x xs ih => simp [ih, add_div]

lemma list_sum_map_sub {A : Type} (l : List A) (f g : A → ℚ) :
    (l.map (fun x => f x - g x)).sum = (l.map f).sum - (l.map g).sum := by
  induction l with
  | nil => simp
  | cons x xs ih => simp [ih]; ring

lemma list_sum_map_const {A : Type} (l : List A) (c : ℚ) :
    (l.map (fun _ => c)).sum = (l.length : ℚ) * c := by
  induction l with
  | nil => simp
  | cons x xs ih => simp [ih]; ring

lemma sum_centered_zero {A : Type} (l : List A) (f : A → ℚ) (h : l ≠ []) :
    (l.map (fun p => f p - (l.map (fun q => f q / (l.length : ℚ))).sum)).sum
      = 0 := by
  have hN : ((l.length : ℚ)) ≠ 0 := by
    have : 0 < l.length := List.length_pos.mpr h
    exact_mod_cast Nat.pos_iff_ne_zero.mp this
  rw [list_sum_map_sub l f (fun _ => (l.map (fun q => f q / (l.length : ℚ))).sum),
    list_sum_map_const, list_sum_map_div]
  field_simp
lemma normalizePoints_eq_map (pts : List (ℚ × ℚ)) (h : pts ≠ []) :
    normalizePoints pts = pts.map (fun p =>
      ((p.1 - npMean1 pts) / (if jsSqrt (npVar1 pts) = 0 then 1 else jsSqrt (npVar1 pts)),
       (p.2 - npMean2 pts) / (if jsSqrt (npVar2 pts) = 0 then 1 else jsSqrt (npVar2 pts)))) := by
  unfold normalizePoints
  rw [if_neg h]

lemma npMean1_map_scale (pts : List (ℚ × ℚ)) (h : pts ≠ []) (s1 s2 : ℚ) :
    npMean1 (pts.map (fun p => ((p.1 - npMean1 pts) / s1, (p.2 - npMean2 pts) / s2))) = 0 := by
  unfold npMean1
  simp only [List.map_map, List.length_map, Function.comp_def]
  rw [list_sum_map_div, list_sum_map_div, sum_centered_zero pts (fun p => p.1) h]
  simp

lemma npMean2_map_scale (pts : List (ℚ × ℚ)) (h : pts ≠ []) (s1 s2 : ℚ) :
    npMean2 (pts.map (fun p => ((p.1 - npMean1 pts) / s1, (p.2 - npMean2 pts) / s2))) = 0 := by
  unfold npMean2
  simp only [List.map_map, List.length_map, Function.comp_def]
  rw [list_sum_map_div, list_sum_map_div, sum_centered_zero pts (fun p => p.2) h]
  simp
lemma npVar1_map_scale (pts : List (ℚ × ℚ)) (h : pts ≠ []) (s1 s2 : ℚ) :
    npVar1 (pts.map (fun p =>
      ((p.1 - npMean1 pts) / s1, (p.2 - npMean2 pts) / s2))) =
    npVar1 pts / s1 ^ 2 := by
  unfold npVar1
  rw [npMean1_map_scale pts h s1 s2]
  simp only [List.map_map, List.length_map, Function.comp_def, sub_zero,
    div_pow]
  rw [list_sum_map_div, list_sum_map_div, list_sum_map_div]
  rw [div_div, div_div, mul_comm (s1 ^ 2) ((pts.length : ℚ))]

lemma npVar2_map_scale (pts : List (ℚ × ℚ)) (h : pts ≠ []) (s1 s2 : ℚ) :
    npVar2 (pts.map (fun p =>
      ((p.1 - npMean1 pts) / s1, (p.2 - npMean2 pts) / s2))) =
    npVar2 pts / s2 ^ 2 := by
  unfold npVar2
  rw [npMean2_map_scale pts h s1 s2]
  simp only [List.map_map, List.length_map, Function.comp_def, sub_zero,
    div_pow]
  rw [list_sum_map_div, list_sum_map_div, list_sum_map_div]
  rw [div_div, div_div, mul_comm (s2 ^ 2) ((pts.length : ℚ))]

/-- C5 (amended): `normalizePoints` — the final normalization of the
t-SNE path — recenters each axis to mean EXACTLY `0`, and rescales to
variance exactly `1` on every axis whose pre-normalization variance is
nonzero and represented exactly by the square root (true of every perfect
square, and of every axis in exact real arithmetic); when the axis
variance is `0`, the `std || 1` guard leaves the coordinates recentred
with variance `0`, never dividing by zero.  The MDS path applies no such
normalization (see the counterexample `simpleMDS_output_not_normalized`),
and all quantities here are exact rationals, so no NaN or infinite
coordinate can arise in either reducer. -/
theorem normalizePoints_mean_zero_var_one (pts : List (ℚ × ℚ))
    (h : pts ≠ []) :
    npMean1 (normalizePoints pts) = 0 ∧ npMean2 (normalizePoints pts) = 0 ∧
    (jsSqrt (npVar1 pts) ^ 2 = npVar1 pts → npVar1 pts ≠ 0 →
      npVar1 (normalizePoints pts) = 1) ∧
    (jsSqrt (npVar2 pts) ^ 2 = npVar2 pts → npVar2 pts ≠ 0 →
      npVar2 (normalizePoints pts) = 1) := by
  rw [normalizePoints_eq_map pts h]
  refine ⟨npMean1_map_scale pts h _ _, npMean2_map_scale pts h _ _, ?_, ?_⟩
  · intro hsq hne
    have hs : jsSqrt (npVar1 pts) ≠ 0 := by
      intro h0
      rw [h0] at hsq
      simp at hsq
      exact hne hsq.symm
    rw [if_neg hs] at *
    rw [npVar1_map_scale pts h _ _, hsq]
    exact div_self hne
  · intro hsq hne
    have hs : jsSqrt (npVar2 pts) ≠ 0 := by
      intro h0
      rw [h0] at hsq
      simp at hsq
      exact hne hsq.symm
    rw [if_neg hs] at *
    rw [npVar2_map_scale pts h _ _, hsq]
    exact div_self hne
/-- Witness for C5's amended theorem at `[(0,0), (2,2)]` (variance 1 on
both axes). -/
theorem normalizePoints_mean_zero_var_one_witness :
    (([((0 : ℚ), (0 : ℚ)), (2, 2)] : List (ℚ × ℚ)) ≠ []) ∧
    (npMean1 (normalizePoints [((0 : ℚ), (0 : ℚ)), (2, 2)]) = 0 ∧
      npMean2 (normalizePoints [((0 : ℚ), (0 : ℚ)), (2, 2)]) = 0 ∧
      (jsSqrt (npVar1 [((0 : ℚ), (0 : ℚ)), (2, 2)]) ^ 2 =
          npVar1 [((0 : ℚ), (0 : ℚ)), (2, 2)] →
        npVar1 [((0 : ℚ), (0 : ℚ)), (2, 2)] ≠ 0 →
        npVar1 (normalizePoints [((0 : ℚ), (0 : ℚ)), (2, 2)]) = 1) ∧
      (jsSqrt (npVar2 [((0 : ℚ), (0 : ℚ)), (2, 2)]) ^ 2 =
          npVar2 [((0 : ℚ), (0 : ℚ)), (2, 2)] →
        npVar2 [((0 : ℚ), (0 : ℚ)), (2, 2)] ≠ 0 →
        npVar2 (normalizePoints [((0 : ℚ), (0 : ℚ)), (2, 2)]) = 1)) :=
  ⟨by decide, normalizePoints_mean_zero_var_one [(0, 0), (2, 2)] (by decide)⟩

/-! ## C6 (amended): normalized text is a fixed point -/

lemma splitTok_tokens (isSep : Char → Bool) :
    ∀ l : List Char, ∀ t ∈ splitTok isSep l,
      t ≠ [] ∧ ∀ c ∈ t, isSep c = false := by
  intro l
  induction l using splitTok.induct isSep with
  | case1 => intro t ht; simp [splitTok] at ht
  | case2 c cs hsep ih =>
    intro t ht
    rw [splitTok, if_pos hsep] at ht
    exact ih t ht
  | case3 c cs hsep ih =>
    intro t ht
    rw [splitTok, if_neg hsep] at ht
    rcases List.mem_cons.mp ht with h | h
    · subst h
      constructor
      · intro hemp
        have : ¬isSep c = true := hsep
        have hc : (fun x => !isSep x) c = true := by
          simp [Bool.not_eq_true] at this
          simp [this]
        have := List.takeWhile_cons_of_pos (p := fun x => !isSep x)
          (a := c) (l := cs) hc
        rw [this] at hemp
        exact List.cons_ne_nil _ _ hemp
      · intro x hx
        have := List.mem_takeWhile_imp hx
        simpa using this
    · exact ih t h
lemma takeWhile_append_stop (p : Char → Bool) (t : List Char) (x : Char)
    (l : List Char) (ht : ∀ c ∈ t, p c = true) (hx : p x = false) :
    (t ++ x :: l).takeWhile p = t := by
  induction t with
  | nil =>
    simp only [List.nil_append]
    rw [List.takeWhile_cons_of_neg]
    simp [hx]
  | cons c cs ih =>
    simp only [List.cons_append]
    rw [List.takeWhile_cons_of_pos (ht c (List.mem_cons_self c cs))]
    rw [ih (fun d hd => ht d (List.mem_cons_of_mem c hd))]

lemma dropWhile_append_stop (p : Char → Bool) (t : List Char) (x : Char)
    (l : List Char) (ht : ∀ c ∈ t, p c = true) (hx : p x = false) :
    (t ++ x :: l).dropWhile p = x :: l := by
  induction t with
  | nil =>
    simp only [List.nil_append]
    rw [List.dropWhile_cons_of_neg]
    simp [hx]
  | cons c cs ih =>
    simp only [List.cons_append]
    rw [List.dropWhile_cons_of_pos (ht c (List.mem_cons_self c cs))]
    exact ih (fun d hd => ht d (List.mem_cons_of_mem c hd))

lemma takeWhile_all (p : Char → Bool) (t : List Char)
    (ht : ∀ c ∈ t, p c = true) : t.takeWhile p = t := by
  induction t with
  | nil => rfl
  | cons c cs ih =>
    rw [List.takeWhile_cons_of_pos (ht c (List.mem_cons_self c cs))]
    rw [ih (fun d hd => ht d (List.mem_cons_of_mem c hd))]

lemma dropWhile_all (p : Char → Bool) (t : List Char)
    (ht : ∀ c ∈ t, p c = true) : t.dropWhile p = [] := by
  induction t with
  | nil => rfl
  | cons c cs ih =>
    rw [List.dropWhile_cons_of_pos (ht c (List.mem_cons_self c cs))]
    exact ih (fun d hd => ht d (List.mem_cons_of_mem c hd))

lemma splitWs_joinWs (ts : List (List Char))
    (h : ∀ t ∈ ts, t ≠ [] ∧ ∀ c ∈ t, c.isWhitespace = false) :
    splitWs (joinWs ts) = ts := by
  induction ts with
  | nil => simp [joinWs, splitWs, splitTok]
  | cons t ts ih =>
    have hne := (h t (List.mem_cons_self t ts)).1
    have hnw := (h t (List.mem_cons_self t ts)).2
    have hkeep : ∀ c ∈ t, (fun x => !x.isWhitespace) c = true := by
      intro c hc
      simp [hnw c hc]
    cases ts with
    | nil =>
      show splitWs t = [t]
      cases t with
      | nil => exact absurd rfl hne
      | cons c cs =>
        show splitTok Char.isWhitespace (c :: cs) = [c :: cs]
        rw [splitTok, if_neg (by
          simp [hnw c (List.mem_cons_self c cs)])]
        rw [takeWhile_all _ _ hkeep, dropWhile_all _ _ hkeep]
        simp [splitTok]
    | cons u us =>
      show splitWs (t ++ ' ' :: joinWs (u :: us)) = t :: u :: us
      cases t with
      | nil => exact absurd rfl hne
      | cons c cs =>
        show splitTok Char.isWhitespace
          ((c :: cs) ++ ' ' :: joinWs (u :: us)) = (c :: cs) :: u :: us
        rw [List.cons_append, splitTok, if_neg (by
          simp [hnw c (List.mem_cons_self c cs)])]
        rw [← List.cons_append]
        rw [takeWhile_append_stop _ _ ' ' _ hkeep (by decide),
          dropWhile_append_stop _ _ ' ' _ hkeep (by decide)]
        have hws : (' ').isWhitespace = true := by decide
        rw [show splitTok Char.isWhitespace (' ' :: joinWs (u :: us)) =
          splitTok Char.isWhitespace (joinWs (u :: us)) from by
            rw [splitTok, if_pos hws]]
        have ih2 := ih (fun x hx => h x (List.mem_cons_of_mem _ hx))
        unfold splitWs at ih2
        rw [ih2]
/-- C6 (amended): preprocessing is NOT idempotent in general (see
`preprocessText_not_idempotent`), but already-normalized text is a fixed
point of `preprocessText`: any string that is lowercase, is exactly its
whitespace tokens joined by single spaces, whose tokens all pass the
filter (length > 2, no stopword, alphanumeric) and are fixed points of the
stemmer, is returned unchanged. -/
theorem preprocessText_fixed_point (s : String)
    (h0 : s.data.map Char.toLower = s.data)
    (h1 : joinWs (splitWs s.data) = s.data)
    (h2 : ∀ t ∈ splitWs s.data, keepToken t = true)
    (h3 : ∀ t ∈ splitWs s.data, mockStem (String.mk t) = String.mk t) :
    preprocessText s = s := by
  unfold preprocessText collapseWs
  rw [h0]
  show String.mk (joinWs ((List.filter keepToken
    (splitWs (joinWs (splitWs s.data)))).map
      (fun t => (mockStem (String.mk t)).data))) = s
  rw [h1]
  rw [List.filter_eq_self.mpr h2]
  have hmap : (splitWs s.data).map (fun t => (mockStem (String.mk t)).data) =
      (splitWs s.data).map id := by
    apply List.map_congr_left
    intro t ht
    rw [h3 t ht]
    rfl
  rw [hmap, List.map_id, h1]
/-- Witness for C6's amended theorem on the normalized string
`"quantum entangl"`. -/
theorem preprocessText_fixed_point_witness :
    (("quantum entangl" : String).data.map Char.toLower =
        ("quantum entangl" : String).data ∧
      joinWs (splitWs ("quantum entangl" : String).data) =
        ("quantum entangl" : String).data ∧
      (∀ t ∈ splitWs ("quantum entangl" : String).data, keepToken t = true) ∧
      (∀ t ∈ splitWs ("quantum entangl" : String).data,
        mockStem (String.mk t) = String.mk t)) ∧
    preprocessText "quantum entangl" = "quantum entangl" := by
  refine ⟨⟨?_, ?_, ?_, ?_⟩, ?_⟩
  · with_unfolding_all decide
  · with_unfolding_all decide
  · with_unfolding_all decide
  · with_unfolding_all decide
  · exact preprocessText_fixed_point "quantum entangl"
      (by with_unfolding_all decide) (by with_unfolding_all decide)
      (by with_unfolding_all decide) (by with_unfolding_all decide)

/-! ## C9: cluster summaries for every cluster id -/

lemma calculateGradient_replicate (n : ℕ) (probs : List (List ℚ)) (ex : ℚ) :
    calculateGradient (List.replicate n ((0 : ℚ), (0 : ℚ))) probs ex =
      List.replicate n ((0 : ℚ), (0 : ℚ)) := by
  unfold calculateGradient
  simp only [List.length_replicate, getD_replicate, sub_self, mul_zero,
    ite_self, Finset.sum_const_zero]
  rw [show (fun (_ : ℕ) => ((0 : ℚ), (0 : ℚ))) =
    Function.const ℕ ((0 : ℚ), (0 : ℚ)) from rfl]
  rw [List.map_const, List.length_range]

lemma normalizePoints_replicate_zero (n : ℕ) :
    normalizePoints (List.replicate n ((0 : ℚ), (0 : ℚ))) =
      List.replicate n ((0 : ℚ), (0 : ℚ)) := by
  unfold normalizePoints
  by_cases h : (List.replicate n ((0 : ℚ), (0 : ℚ))) = []
  · rw [if_pos h]
  · rw [if_neg h]
    have hm1 : npMean1 (List.replicate n ((0 : ℚ), (0 : ℚ))) = 0 := by
      unfold npMean1
      rw [List.map_replicate]
      simp
    have hm2 : npMean2 (List.replicate n ((0 : ℚ), (0 : ℚ))) = 0 := by
      unfold npMean2
      rw [List.map_replicate]
      simp
    have hv1 : npVar1 (List.replicate n ((0 : ℚ), (0 : ℚ))) = 0 := by
      unfold npVar1
      rw [hm1, List.map_replicate]
      simp
    have hv2 : npVar2 (List.replicate n ((0 : ℚ), (0 : ℚ))) = 0 := by
      unfold npVar2
      rw [hm2, List.map_replicate]
      simp
    rw [hm1, hm2, hv1, hv2]
    rw [show jsSqrt 0 = 0 from by with_unfolding_all decide]
    simp only [if_pos rfl, List.map_replicate]
    simp

lemma tsneStep_replicate (probs : List (List ℚ)) (iterations iter n : ℕ) :
    tsneStep probs iterations iter (List.replicate n ((0 : ℚ), (0 : ℚ))) =
      List.replicate n ((0 : ℚ), (0 : ℚ)) := by
  simp only [tsneStep]
  rw [calculateGradient_replicate]
  simp only [List.length_replicate, getD_replicate]
  have hupd : (List.range n).map (fun _ =>
      (((0 : ℚ), (0 : ℚ)).1 - 100 * ((0 : ℚ), (0 : ℚ)).1,
       ((0 : ℚ), (0 : ℚ)).2 - 100 * ((0 : ℚ), (0 : ℚ)).2)) =
      List.replicate n ((0 : ℚ), (0 : ℚ)) := by
    have : (fun (_ : ℕ) =>
        (((0 : ℚ), (0 : ℚ)).1 - 100 * ((0 : ℚ), (0 : ℚ)).1,
         ((0 : ℚ), (0 : ℚ)).2 - 100 * ((0 : ℚ), (0 : ℚ)).2)) =
        Function.const ℕ ((0 : ℚ), (0 : ℚ)) := by
      funext x
      show ((0 : ℚ) - 100 * 0, (0 : ℚ) - 100 * 0) = ((0 : ℚ), (0 : ℚ))
      norm_num
    rw [this, List.map_const, List.length_range]
  rw [hupd, normalizePoints_replicate_zero]
  simp

lemma tsneLoop_replicate (probs : List (List ℚ)) (iterations n : ℕ) :
    ∀ (fuel iter : ℕ),
      tsneLoop probs iterations fuel iter (List.replicate n ((0 : ℚ), (0 : ℚ))) =
        List.replicate n ((0 : ℚ), (0 : ℚ))
  | 0, _ => rfl
  | fuel + 1, iter => by
    rw [tsneLoop, tsneStep_replicate]
    exact tsneLoop_replicate probs iterations n fuel (iter + 1)
lemma tSNE_identical_three :
    tSNEProjection [[(1 : ℚ), 0], [1, 0], [1, 0]] 1000 rng0 0 =
      List.replicate 3 ((0 : ℚ), (0 : ℚ)) := by
  unfold tSNEProjection
  rw [if_neg (by decide : ¬([[(1 : ℚ), 0], [1, 0], [1, 0]] : List (List ℚ)) = [])]
  show normalizePoints (tsneLoop _ 1000 1000 0
    ((List.range ([[(1 : ℚ), 0], [1, 0], [1, 0]] : List (List ℚ)).length).map
      (fun i => (rng0 (0 + 2 * i) * (1 / 10000), rng0 (0 + 2 * i + 1) * (1 / 10000))))) =
    List.replicate 3 ((0 : ℚ), (0 : ℚ))
  rw [show ((List.range ([[(1 : ℚ), 0], [1, 0], [1, 0]] : List (List ℚ)).length).map
      (fun i => (rng0 (0 + 2 * i) * (1 / 10000), rng0 (0 + 2 * i + 1) * (1 / 10000)))) =
    List.replicate 3 ((0 : ℚ), (0 : ℚ)) from by with_unfolding_all decide]
  rw [tsneLoop_replicate, normalizePoints_replicate_zero]
/-- Counterexample to C9 as stated: `processVectorData` SKIPS empty
clusters (`if (clusterPoints.length === 0) continue`).  On three points
with identical vectors and `clusterCount = 2`, k-means++ seeds both
centroids on the same point, every document lands in cluster `0`, and the
returned summary list has a single entry `[id 0]` and `clusterCount 1` —
not two entries with a placeholder for the empty cluster `1`.  (The
t-SNE projection of the identical vectors is the all-zero point list,
established by the fixed-point lemmas above.) -/
theorem processVectorData_skips_empty_cluster :
    (Except.map (fun r => (r.clusters.length, r.clusters.map (fun c => c.id),
        r.clusterCount))
      (processVectorData
        ⟨[⟨"alpha alpha", [1, 0]⟩, ⟨"alpha beta", [1, 0]⟩,
          ⟨"alpha gamma", [1, 0]⟩], 2⟩ rng0)) = Except.ok (1, [0], 1) := by
  simp only [processVectorData]
  rw [if_neg (by decide : ¬(VData.mk
    [⟨"alpha alpha", [1, 0]⟩, ⟨"alpha beta", [1, 0]⟩,
     ⟨"alpha gamma", [1, 0]⟩] 2).points = [])]
  rw [show (VData.mk
      [⟨"alpha alpha", [1, 0]⟩, ⟨"alpha beta", [1, 0]⟩,
       ⟨"alpha gamma", [1, 0]⟩] 2).points.map (fun p => p.vector) =
    [[(1 : ℚ), 0], [1, 0], [1, 0]] from by with_unfolding_all decide]
  rw [tSNE_identical_three]
  with_unfolding_all decide
/-- C9 (amended): the cluster-summary loop of `clusterTexts` emits one
entry for EVERY cluster id `0..k-1` — its summary list always has exactly
`k` entries — and an empty cluster yields the placeholder
`{size: 0, keyTerms: ["Empty cluster"], example: ""}`; `processVectorData`
however omits empty clusters (see the counterexample). -/
theorem summarizeClusters_placeholder_every_id (docs : List String)
    (points : List CPoint) (k i : ℕ) (hik : i < k) :
    (summarizeClusters docs points k).length = k ∧
    (points.filter (fun p => p.cluster == i) = [] →
      (summarizeClusters docs points k).getD i ⟨0, "", 0, [], ""⟩ =
        ⟨i, "", 0, ["Empty cluster"], ""⟩) := by
  constructor
  · unfold summarizeClusters
    rw [List.length_map, List.length_range]
  · intro hemp
    unfold summarizeClusters
    rw [getD_map_range k _ i hik]
    rw [hemp]
    rfl

/-- Witness for C9's amended theorem: `k = 2` with no points at all gives
two placeholder entries. -/
theorem summarizeClusters_placeholder_every_id_witness :
    ((0 : ℕ) < 2) ∧
    ((summarizeClusters ["alpha doc"] [] 2).length = 2 ∧
      (([] : List CPoint).filter (fun p => p.cluster == 0) = [] →
        (summarizeClusters ["alpha doc"] [] 2).getD 0 ⟨0, "", 0, [], ""⟩ =
          ⟨0, "", 0, ["Empty cluster"], ""⟩)) :=
  ⟨by decide, summarizeClusters_placeholder_every_id ["alpha doc"] [] 2 0
    (by decide)⟩

/-! ## C1: degenerate input handling of clusterTexts -/

lemma mockPtsAux_length (rng : ℕ → ℚ) (i : ℕ) (cx cy : ℚ) (row : List String) :
    ∀ (count j ctr pid : ℕ),
      (mockPtsAux rng i cx cy row j count ctr pid).length = count
  | 0, _, _, _ => rfl
  | count + 1, j, ctr, pid => by
    rw [mockPtsAux]
    simp only [List.length_cons]
    rw [mockPtsAux_length rng i cx cy row count (j + 1) (ctr + 6) (pid + 1)]

lemma mockPointsOuter_length (rng : ℕ → ℚ) :
    ∀ (l : List (ℕ × ℕ)) (ctr pid : ℕ),
      (mockPointsOuter rng l ctr pid).length = (l.map Prod.snd).sum
  | [], _, _ => rfl
  | (i, size) :: rest, ctr, pid => by
    rw [mockPointsOuter]
    simp only [List.length_append, List.map_cons, List.sum_cons]
    rw [mockPtsAux_length, mockPointsOuter_length rng rest]

lemma generateMock_wellformed (rng : ℕ → ℚ) (off : ℕ) :
    (generateMockClusteringData rng off).clusters.length = 5 ∧
    (generateMockClusteringData rng off).clusterCount = 5 ∧
    (generateMockClusteringData rng off).points ≠ [] := by
  refine ⟨?_, rfl, ?_⟩
  · show ((((List.range 5).map _).map _) : List CCluster).length = 5
    rw [List.length_map, List.length_map, List.length_range]
  · show mockPointsOuter rng ((List.range 5).zip
      ((List.range 5).map (fun i => floorIdx (rng (off + i)) 10 + 5)))
      (off + 5) 0 ≠ []
    intro hemp
    have hlen := congrArg List.length hemp
    rw [mockPointsOuter_length] at hlen
    rw [show List.range 5 = [0, 1, 2, 3, 4] from rfl] at hlen
    simp only [List.map_cons, List.map_nil, List.zip_cons_cons,
      List.zip_nil_right, List.sum_cons, List.sum_nil, List.length_nil] at hlen
    omega
/-- C1 (amended): for every input with fewer than 2 usable documents, or
fewer than 2 nonempty preprocessed documents, or an empty vocabulary,
`clusterTexts` does not raise — but instead of an EMPTY result it returns
`generateMockClusteringData()`: a well-formed placeholder with exactly 5
cluster summaries, `clusterCount = 5`, and a NONEMPTY point list. -/
theorem clusterTexts_degenerate_returns_mock (data : List CItem)
    (rng : ℕ → ℚ)
    (h : (usableTexts data).length < 2 ∨
      (processedOf (usableTexts data)).length < 2 ∨
      allTermsOf (processedOf (usableTexts data)) = []) :
    clusterTexts data rng = generateMockClusteringData rng 0 ∧
    (clusterTexts data rng).clusters.length = 5 ∧
    (clusterTexts data rng).clusterCount = 5 ∧
    (clusterTexts data rng).points ≠ [] := by
  have hmock : clusterTexts data rng = generateMockClusteringData rng 0 := by
    simp only [clusterTexts]
    by_cases hd : data = []
    · rw [if_pos hd]
    · rw [if_neg hd]
      by_cases h1 : (usableTexts data).length < 2
      · rw [if_pos h1]
      · rw [if_neg h1]
        by_cases h2 : (processedOf (usableTexts data)).length < 2
        · rw [if_pos h2]
        · rw [if_neg h2]
          have h3 : allTermsOf (processedOf (usableTexts data)) = [] := by
            rcases h with h | h | h
            · exact absurd h h1
            · exact absurd h h2
            · exact h
          rw [if_pos h3]
  have hw := generateMock_wellformed rng 0
  rw [hmock]
  exact ⟨rfl, hw.1, hw.2.1, hw.2.2⟩

/-- Witness for C1's amended theorem on the empty input list. -/
theorem clusterTexts_degenerate_returns_mock_witness :
    ((usableTexts []).length < 2 ∨ (processedOf (usableTexts [])).length < 2 ∨
      allTermsOf (processedOf (usableTexts [])) = []) ∧
    (clusterTexts [] rng0 = generateMockClusteringData rng0 0 ∧
      (clusterTexts [] rng0).clusters.length = 5 ∧
      (clusterTexts [] rng0).clusterCount = 5 ∧
      (clusterTexts [] rng0).points ≠ []) :=
  ⟨Or.inl (by with_unfolding_all decide),
    clusterTexts_degenerate_returns_mock [] rng0
      (Or.inl (by with_unfolding_all decide))⟩

/-- Counterexample to C1 as stated: on the empty input (0 < 2 usable
documents) the result has 25 points and 5 clusters — not the claimed
empty points / empty clusters. -/
theorem clusterTexts_degenerate_not_empty :
    (clusterTexts [] rng0).points.length = 25 ∧
    (clusterTexts [] rng0).clusters.length = 5 ∧
    (clusterTexts [] rng0).points ≠ [] := by
  with_unfolding_all decide
